import Mathlib

/-!
Verification of the real-time core of the Team Pulse backend
(`src/services/websocketService.js`, `src/services/realtimeService.js`,
`middleware/websokectAuth.js`) against its natural-language specification.

The mutable `Map`/`Set` registries of the `WebSocketService` singleton are
modelled as association lists that keep JS insertion order; each socket.io
handler becomes a function `WSState → ... → WSState × List Emit`, where
`Emit` records the socket.io side effects (`socket.emit`, `socket.to(room)
.emit`, `io.to(room).emit`, `socket.disconnect()`) in issuance order.
Wall-clock timestamps (`new Date().toISOString()`, `Date.now()`) are passed
in as a `Nat` parameter `now`.
-/

namespace TeamPulse

/-! ### JS `Map` and `Set` as insertion-ordered association lists -/

/-- JS `Map.get`: first binding of the key, if any. -/
def mapGet {α : Type} (m : List (String × α)) (k : String) : Option α :=
  match m with
  | [] => none
  | p :: rest => if p.1 = k then some p.2 else mapGet rest k

/-- JS `Map.set`: update the existing binding in place, else append. -/
def mapSet {α : Type} (m : List (String × α)) (k : String) (v : α) :
    List (String × α) :=
  match m with
  | [] => [(k, v)]
  | p :: rest => if p.1 = k then (k, v) :: rest else p :: mapSet rest k v

/-- JS `Map.delete`. -/
def mapDelete {α : Type} (m : List (String × α)) (k : String) :
    List (String × α) :=
  match m with
  | [] => []
  | p :: rest => if p.1 = k then mapDelete rest k else p :: mapDelete rest k

/-- JS `Set.add`: a JS `Set` ignores an element already present and appends a
new one. -/
def setInsert (l : List String) (x : String) : List String :=
  if x ∈ l then l else l ++ [x]

/-- JS `Set.delete`. -/
def setErase (l : List String) (x : String) : List String :=
  l.filter (fun y => decide (y ≠ x))

/-! ### Data model (the registries of `WebSocketService`) -/

/-- One entry of `this.rooms` (`roomId -> room data`). -/
structure Room where
  id : String
  teamId : String
  rtype : String
  members : List String
  createdAt : Nat
  lastActivity : Nat
deriving DecidableEq

/-- One entry of `this.userSessions` (`userId -> session`). -/
structure UserSession where
  socketId : String
  teamIds : List String
  lastActivity : Nat
deriving DecidableEq

/-- One entry of `this.socketUsers` (`socketId -> user data`). -/
structure SocketUser where
  userId : String
  socketId : String
  isMobileActive : Bool
deriving DecidableEq

/-- One entry of `this.activeStreams`.  Analytics streams carry
`socketId`/`userId`/`chartType`; the `team_events` streams created by
`subscribeToTeamEvents` leave those fields unset (`undefined` in JS,
hence `none` here, and the absent `isActive` flag is falsy). -/
structure StreamData where
  id : String
  socketId : Option String
  userId : Option String
  teamId : String
  roomId : Option String
  stype : String
  chartType : Option String
  period : Option String
  isActive : Bool
  isPaused : Bool
  lastUpdate : Nat
deriving DecidableEq

/-- One entry of `this.collaborationSessions`.  The code stores `endedAt`
on termination; `endedBy` is only ever emitted, never stored. -/
structure CollabSession where
  id : String
  teamId : String
  stype : String
  createdBy : String
  participants : List String
  status : String
  lastActivity : Nat
  endedAt : Option Nat
deriving DecidableEq

/-- One entry of `realtimeService.activeChannels`
(`channelName -> { channel, teamId, type, ... }`). -/
structure RtChannel where
  teamId : String
  ctype : String
deriving DecidableEq

/-- The whole mutable state: the `WebSocketService` registries, the
socket.io layer (`connectedSockets` = `io.sockets.sockets`, `ioRooms` =
the adapter's room membership), the live `setInterval` handles created by
`scheduleAnalyticsUpdates` (`timers`, each carrying the captured socket
id), and the `realtimeService` channel registry. -/
structure WSState where
  connectedSockets : List String
  ioRooms : List (String × List String)
  rooms : List (String × Room)
  userSessions : List (String × UserSession)
  socketUsers : List (String × SocketUser)
  activeStreams : List (String × StreamData)
  collaborationSessions : List (String × CollabSession)
  timers : List (String × String)
  rtChannels : List (String × RtChannel)
deriving DecidableEq

/-! ### Emitted socket.io events -/

/-- Payloads of the events the modelled handlers emit.  Only the fields
the claims inspect are carried; timestamps are dropped. -/
inductive Payload where
  | userJoinedRoom (roomId : String) (userId : String)
  | roomJoined (roomId : String) (teamId : String) (rtype : String)
      (memberCount : Nat)
  | userLeftRoom (roomId : String) (userId : String)
  | collabParticipantLeft (sessionId : String) (userId : String)
  | collabEnded (sessionId : String) (endedBy : String)
  | collabEvent (sessionId : String) (eventType : String) (userId : String)
  | analyticsData (streamId : String)
  | analyticsSubscribed (streamId : String)
  | analyticsUpdate (streamId : String)
  | authenticatedMsg (userId : String) (socketId : String)
  | errorMsg (msg : String)
deriving DecidableEq

/-- The user ids a payload carries (a roster-style message would carry the
ids of every listed user). -/
def carriedUserIds : Payload → List String
  | .userJoinedRoom _ u => [u]
  | .roomJoined _ _ _ _ => []
  | .userLeftRoom _ u => [u]
  | .collabParticipantLeft _ u => [u]
  | .collabEnded _ u => [u]
  | .collabEvent _ _ u => [u]
  | .analyticsData _ => []
  | .analyticsSubscribed _ => []
  | .analyticsUpdate _ => []
  | .authenticatedMsg u _ => [u]
  | .errorMsg _ => []

/-- One socket.io side effect, in issuance order.
`disconnectSocket sid reason` models `socket.disconnect()`: the call takes
no reason argument; socket.io delivers its fixed server-initiated close
reason `io server disconnect` to the disconnected client. -/
inductive Emit where
  | toSocket (socketId : String) (event : String) (p : Payload)
  | toRoomExcept (ioRoom : String) (senderSocket : String) (event : String)
      (p : Payload)
  | toRoom (ioRoom : String) (event : String) (p : Payload)
  | disconnectSocket (socketId : String) (reason : String)
deriving DecidableEq

/-- The sockets currently joined to an adapter room. -/
def roomSockets (ioRooms : List (String × List String)) (room : String) :
    List String :=
  (mapGet ioRooms room).getD []

/-- Whether socket `sid` receives emit `e`, given the adapter rooms:
`socket.to(room).emit` reaches every room member except the sender,
`io.to(room).emit` reaches every room member. -/
def deliveredTo (ioRooms : List (String × List String)) (sid : String) :
    Emit → Bool
  | .toSocket s _ _ => decide (s = sid)
  | .toRoomExcept r sender _ _ =>
      decide (sid ≠ sender ∧ sid ∈ roomSockets ioRooms r)
  | .toRoom r _ _ => decide (sid ∈ roomSockets ioRooms r)
  | .disconnectSocket _ _ => false

/-- The event name of an emit (`none` for a raw disconnect). -/
def emitEvent : Emit → Option String
  | .toSocket _ ev _ => some ev
  | .toRoomExcept _ _ ev _ => some ev
  | .toRoom _ ev _ => some ev
  | .disconnectSocket _ _ => none

/-- The payload of an emit (`none` for a raw disconnect). -/
def emitPayload : Emit → Option Payload
  | .toSocket _ _ p => some p
  | .toRoomExcept _ _ _ p => some p
  | .toRoom _ _ p => some p
  | .disconnectSocket _ _ => none

/-! ### Embedded operations -/

/-- Embeds `socket.join(roomId)` at the adapter level. -/
def ioJoin (r : List (String × List String)) (room sid : String) :
    List (String × List String) :=
  match mapGet r room with
  | some l => mapSet r room (setInsert l sid)
  | none => mapSet r room [sid]

/-- The channel-registration skeleton shared by
`realtimeService.subscribeToTeamCheckIns` / `subscribeToTeamInsights` /
`subscribeToLiveDashboard` (realtimeService.js lines 71-162, 170-218,
309-383): if `activeChannels` already holds the channel name, the
existing subscription is returned unchanged; otherwise a Supabase channel
is created and stored under that name. -/
def rtSubscribe (chans : List (String × RtChannel))
    (channelName teamId ctype : String) : List (String × RtChannel) :=
  if (mapGet chans channelName).isSome then chans
  else mapSet chans channelName { teamId := teamId, ctype := ctype }

/-- Embeds `subscribeToTeamEvents(teamId, roomId)` (websocketService.js lines
291-342): if some active stream already has this `teamId` with type
`team_events`, return without change; otherwise subscribe the three
realtime channels and store a `team_events` stream under a fresh uuid
(`freshId`).  The stored stream carries no `socketId`/`userId`/`isActive`
fields (undefined in JS). -/
def subscribeToTeamEvents (st : WSState) (teamId roomId freshId : String)
    (now : Nat) : WSState :=
  if st.activeStreams.any
      (fun p => p.2.teamId == teamId && p.2.stype == "team_events") then st
  else
    let ch := rtSubscribe st.rtChannels ("team_" ++ teamId ++ "_checkins")
      teamId "team_checkins"
    let ch := rtSubscribe ch ("team_" ++ teamId ++ "_insights")
      teamId "team_insights"
    let ch := rtSubscribe ch ("dashboard_" ++ teamId) teamId "live_dashboard"
    { st with
      rtChannels := ch,
      activeStreams := mapSet st.activeStreams freshId
        { id := freshId, socketId := none, userId := none, teamId := teamId,
          roomId := some roomId, stype := "team_events", chartType := none,
          period := none, isActive := false, isPaused := false,
          lastUpdate := now } }

/-- Embeds `handleJoinTeamRoom(socket, user, data)` (websocketService.js lines
203-284).  The Supabase `team_members` lookup is abstracted by the
boolean `isMember`; `freshId` is the uuid `subscribeToTeamEvents` would
generate.  An empty `teamId` models the falsy `!teamId` guard. -/
def handleJoinTeamRoom (st : WSState) (sid uid teamId rtype : String)
    (isMember : Bool) (freshId : String) (now : Nat) : WSState × List Emit :=
  if teamId = "" then
    (st, [Emit.toSocket sid "error" (Payload.errorMsg "Team ID required")])
  else if isMember = false then
    (st, [Emit.toSocket sid "error"
      (Payload.errorMsg "Not a member of this team")])
  else
    let roomId := "team_" ++ teamId ++ "_" ++ rtype
    let st1 := { st with ioRooms := ioJoin st.ioRooms roomId sid }
    let rooms1 :=
      if (mapGet st1.rooms roomId).isSome then st1.rooms
      else mapSet st1.rooms roomId
        { id := roomId, teamId := teamId, rtype := rtype, members := [],
          createdAt := now, lastActivity := now }
    let room := (mapGet rooms1 roomId).getD
      { id := roomId, teamId := teamId, rtype := rtype, members := [],
        createdAt := now, lastActivity := now }
    let room2 := { room with members := setInsert room.members uid,
                             lastActivity := now }
    let rooms2 := mapSet rooms1 roomId room2
    let sessions :=
      match mapGet st1.userSessions uid with
      | some us => mapSet st1.userSessions uid
          { us with
            teamIds := if teamId ∈ us.teamIds then us.teamIds
                       else us.teamIds ++ [teamId],
            lastActivity := now }
      | none => st1.userSessions
    let st2 := { st1 with rooms := rooms2, userSessions := sessions }
    let st3 := subscribeToTeamEvents st2 teamId roomId freshId now
    (st3,
     [Emit.toRoomExcept roomId sid "user_joined_room"
        (Payload.userJoinedRoom roomId uid),
      Emit.toSocket sid "room_joined"
        (Payload.roomJoined roomId teamId rtype room2.members.length)])

/-- The room cleanup loop of `handleDisconnection` (lines 558-578): for
every room holding the user, remove them, notify the remaining members,
and delete the room if its member set became empty. -/
def roomCleanupEntry (sid uid : String) (p : String × Room) :
    Option (String × Room) × List Emit :=
  if uid ∈ p.2.members then
    let members2 := setErase p.2.members uid
    (if members2 = [] then none
     else some (p.1, { p.2 with members := members2 }),
     [Emit.toRoomExcept p.1 sid "user_left_room"
       (Payload.userLeftRoom p.1 uid)])
  else (some p, [])

def disconnectRooms (rooms : List (String × Room)) (sid uid : String) :
    List (String × Room) × List Emit :=
  let results := rooms.map (roomCleanupEntry sid uid)
  (results.filterMap Prod.fst, (results.map Prod.snd).flatten)

/-- The collaboration cleanup loop of `handleDisconnection` (lines
587-615): remove the user from every session they participate in, notify
the session room, and — when the user is the creator or the participant
set became empty — mark the session ended and broadcast
`collaboration_ended` with `endedBy` = the disconnecting user. -/
def collabCleanupEntry (sid uid : String) (now : Nat)
    (p : String × CollabSession) : (String × CollabSession) × List Emit :=
  if uid ∈ p.2.participants then
    let parts2 := setErase p.2.participants uid
    let leftEmit := Emit.toRoomExcept ("collaboration_" ++ p.1) sid
      "collaboration_participant_left" (Payload.collabParticipantLeft p.1 uid)
    if p.2.createdBy = uid ∨ parts2 = [] then
      ((p.1, { p.2 with participants := parts2, status := "ended",
                        endedAt := some now }),
       [leftEmit,
        Emit.toRoom ("collaboration_" ++ p.1) "collaboration_ended"
          (Payload.collabEnded p.1 uid)])
    else ((p.1, { p.2 with participants := parts2 }), [leftEmit])
  else (p, [])

def disconnectCollabs (sessions : List (String × CollabSession))
    (sid uid : String) (now : Nat) :
    List (String × CollabSession) × List Emit :=
  let results := sessions.map (collabCleanupEntry sid uid now)
  (results.map Prod.fst, (results.map Prod.snd).flatten)

/-- Embeds `handleDisconnection(socket, user, reason)` (lines 551-616), together
with the socket.io layer's own teardown: when the `disconnect` event
fires the socket has already left the connected-socket registry and every
adapter room. -/
def handleDisconnection (st : WSState) (sid uid : String) (now : Nat) :
    WSState × List Emit :=
  let st1 := { st with
    connectedSockets := setErase st.connectedSockets sid,
    ioRooms := st.ioRooms.map
      (fun (p : String × List String) => (p.1, setErase p.2 sid)) }
  let st2 := { st1 with
    socketUsers := mapDelete st1.socketUsers sid,
    userSessions := mapDelete st1.userSessions uid }
  let roomsR := disconnectRooms st2.rooms sid uid
  let streams2 := st2.activeStreams.filter
    (fun p => decide (p.2.socketId ≠ some sid))
  let collabsR := disconnectCollabs st2.collaborationSessions sid uid now
  ({ st2 with rooms := roomsR.1, activeStreams := streams2,
              collaborationSessions := collabsR.1 },
   roomsR.2 ++ collabsR.2)

/-- The post-authentication part of `handleConnection` (lines 82-122):
store the socket's user data, and if the identity already has a session
under a different, still-connected socket, call `disconnect()` on the old
socket — socket.io then fires that socket's `disconnect` event
synchronously, running `handleDisconnection` for the same identity —
before the new session is recorded and `authenticated` is emitted. -/
def registerConnection (st : WSState) (uid sid : String) (now : Nat) :
    WSState × List Emit :=
  let st1 := { st with
    connectedSockets := setInsert st.connectedSockets sid,
    socketUsers := mapSet st.socketUsers sid
      { userId := uid, socketId := sid, isMobileActive := false } }
  let evicted :=
    match mapGet st1.userSessions uid with
    | some es =>
      if es.socketId ≠ sid then
        if es.socketId ∈ st1.connectedSockets then
          let r := handleDisconnection st1 es.socketId uid now
          (r.1, Emit.disconnectSocket es.socketId "io server disconnect" :: r.2)
        else (st1, [])
      else (st1, [])
    | none => (st1, [])
  let st2 := { evicted.1 with
    userSessions := mapSet evicted.1.userSessions uid
      { socketId := sid, teamIds := [], lastActivity := now } }
  (st2, evicted.2 ++
    [Emit.toSocket sid "authenticated" (Payload.authenticatedMsg uid sid)])

/-- Embeds `handleCollaborationEvent(socket, user, data)` (lines 476-507): the
only guard is that the session exists and the caller is a current
participant; the session's `status` is never consulted. -/
def handleCollaborationEvent (st : WSState)
    (sid uid sessionId eventType : String) (now : Nat) :
    WSState × List Emit :=
  match mapGet st.collaborationSessions sessionId with
  | none =>
    (st, [Emit.toSocket sid "error"
      (Payload.errorMsg "Not part of this collaboration session")])
  | some sess =>
    if uid ∈ sess.participants then
      ({ st with collaborationSessions := (mapSet st.collaborationSessions
          sessionId { sess with lastActivity := now }) },
       [Emit.toRoomExcept ("collaboration_" ++ sessionId) sid
         "collaboration_event"
         (Payload.collabEvent sessionId eventType uid)])
    else
      (st, [Emit.toSocket sid "error"
        (Payload.errorMsg "Not part of this collaboration session")])

/-- Embeds `scheduleAnalyticsUpdates(streamId, socket)` (lines 728-762): if the
stream exists, create a `setInterval` handle capturing the socket. -/
def scheduleAnalyticsUpdates (st : WSState) (streamId sid : String) :
    WSState :=
  if (mapGet st.activeStreams streamId).isSome then
    { st with timers := st.timers ++ [(streamId, sid)] }
  else st

/-- One firing of the interval callback created by
`scheduleAnalyticsUpdates` (lines 733-761): if the stream is gone or not
active, the interval clears itself and nothing is emitted; otherwise an
`analytics_update` is pushed to the captured socket and `lastUpdate`
advances.  A tick of a timer that no longer exists does nothing. -/
def analyticsTick (st : WSState) (streamId sid : String) (now : Nat) :
    WSState × List Emit :=
  if (streamId, sid) ∈ st.timers then
    match mapGet st.activeStreams streamId with
    | some s =>
      if s.isActive then
        ({ st with activeStreams := (mapSet st.activeStreams streamId
            { s with lastUpdate := now }) },
         [Emit.toSocket sid "analytics_update"
           (Payload.analyticsUpdate streamId)])
      else ({ st with timers := st.timers.erase (streamId, sid) }, [])
    | none => ({ st with timers := st.timers.erase (streamId, sid) }, [])
  else (st, [])

/-- Embeds `handleSubscribeAnalytics(socket, user, data)` (lines 350-409), with
the membership lookup abstracted by `isMember`: store the stream under
the deterministic id, push the initial snapshot, schedule the recurring
update, and confirm the subscription. -/
def handleSubscribeAnalytics (st : WSState)
    (sid uid teamId chartType period : String) (isMember : Bool)
    (now : Nat) : WSState × List Emit :=
  if isMember = false then
    (st, [Emit.toSocket sid "error"
      (Payload.errorMsg "Not a member of this team")])
  else
    let streamId := "analytics_" ++ teamId ++ "_" ++ chartType ++ "_" ++ sid
    let st1 := { st with activeStreams := (mapSet st.activeStreams streamId
      { id := streamId, socketId := some sid, userId := some uid,
        teamId := teamId, roomId := none, stype := "analytics",
        chartType := some chartType, period := some period,
        isActive := true, isPaused := false, lastUpdate := now }) }
    let st2 := scheduleAnalyticsUpdates st1 streamId sid
    (st2,
     [Emit.toSocket sid "analytics_data" (Payload.analyticsData streamId),
      Emit.toSocket sid "analytics_subscribed"
        (Payload.analyticsSubscribed streamId)])

/-- Embeds `pauseMobileSubscriptions(socket, user)` (lines 784-792): pause every
analytics stream belonging to the user. -/
def pauseMobileSubscriptions (streams : List (String × StreamData))
    (uid : String) : List (String × StreamData) :=
  streams.map (fun p =>
    if p.2.userId = some uid ∧ p.2.stype = "analytics" then
      (p.1, { p.2 with isPaused := true, isActive := false })
    else p)

/-- Embeds `resumeMobileSubscriptions(socket, user)` (lines 769-777): flip every
paused stream of the user back to active.  No new interval is scheduled
here. -/
def resumeMobileSubscriptions (streams : List (String × StreamData))
    (uid : String) : List (String × StreamData) :=
  streams.map (fun p =>
    if p.2.userId = some uid ∧ p.2.isPaused = true then
      (p.1, { p.2 with isPaused := false, isActive := true })
    else p)

/-- Embeds `handleMobileBlur` (lines 532-543): mark the socket inactive and pause
its user's analytics subscriptions. -/
def handleMobileBlur (st : WSState) (sid uid : String) : WSState :=
  let su := match mapGet st.socketUsers sid with
    | some u => mapSet st.socketUsers sid { u with isMobileActive := false }
    | none => st.socketUsers
  { st with socketUsers := su,
            activeStreams := pauseMobileSubscriptions st.activeStreams uid }

/-- Embeds `handleMobileFocus` (lines 514-525): mark the socket active and resume
its user's paused subscriptions. -/
def handleMobileFocus (st : WSState) (sid uid : String) : WSState :=
  let su := match mapGet st.socketUsers sid with
    | some u => mapSet st.socketUsers sid { u with isMobileActive := true }
    | none => st.socketUsers
  { st with socketUsers := su,
            activeStreams := resumeMobileSubscriptions st.activeStreams uid }

/-! ### Rate limiting (`middleware/websokectAuth.js`) -/

/-- The per-key record stored in the rate-limit map. -/
structure RateLimitRec where
  count : Nat
  windowStart : Nat
deriving DecidableEq

/-- Embeds `checkWebSocketRateLimit` (websokectAuth.js lines 103-128), restricted
to one `userId:eventType` key: `entry` is the map's current record for
the key (`none` if absent).  Returns the boolean result and the record
the map holds afterwards.  `Nat` subtraction agrees with the JS
comparison `now - windowStart > windowMs` whenever `now ≥ windowStart`,
and also when `now < windowStart` (both sides make the guard false). -/
def checkWebSocketRateLimit (entry : Option RateLimitRec)
    (maxEvents windowMs now : Nat) : Bool × RateLimitRec :=
  match entry with
  | none => (true, { count := 1, windowStart := now })
  | some limit =>
    if now - limit.windowStart > windowMs then
      (true, { count := 1, windowStart := now })
    else if limit.count ≥ maxEvents then (false, limit)
    else (true, { limit with count := limit.count + 1 })

/-- Run `checkWebSocketRateLimit` over a sequence of call times, counting
how many calls returned `true`. -/
def rateLimitRun (entry : RateLimitRec) (maxEvents windowMs : Nat) :
    List Nat → Nat × RateLimitRec
  | [] => (0, entry)
  | t :: ts =>
    let r := checkWebSocketRateLimit (some entry) maxEvents windowMs t
    let rest := rateLimitRun r.2 maxEvents windowMs ts
    ((if r.1 then 1 else 0) + rest.1, rest.2)

/-! ### Observation helpers and concrete states -/

/-- Whether an emit is a `collaboration_ended` broadcast for the given
session. -/
def isEndedEmitFor (sessId : String) (e : Emit) : Bool :=
  match emitPayload e with
  | some (Payload.collabEnded s _) => decide (s = sessId)
  | _ => false

/-- How many active streams are `team_events` upstream bundles for the
team. -/
def countTeamEvents (streams : List (String × StreamData))
    (teamId : String) : Nat :=
  (streams.filter
    (fun p => p.2.teamId == teamId && p.2.stype == "team_events")).length

/-- How many realtime channels are registered under the given name. -/
def channelCount (chans : List (String × RtChannel)) (name : String) : Nat :=
  (chans.filter (fun p => decide (p.1 = name))).length

/-- The service state right after construction: every registry empty. -/
def emptyState : WSState :=
  { connectedSockets := [], ioRooms := [], rooms := [], userSessions := [],
    socketUsers := [], activeStreams := [], collaborationSessions := [],
    timers := [], rtChannels := [] }

/-- One user `u1` already authenticated on socket `s1`. -/
def c1State : WSState :=
  { emptyState with
    connectedSockets := ["s1"],
    socketUsers := [("s1",
      { userId := "u1", socketId := "s1", isMobileActive := false })],
    userSessions := [("u1",
      { socketId := "s1", teamIds := [], lastActivity := 0 })] }

/-- One user `u1` on socket `s1`, no rooms yet. -/
def c4State : WSState :=
  { emptyState with
    connectedSockets := ["s1"],
    socketUsers := [("s1",
      { userId := "u1", socketId := "s1", isMobileActive := false })],
    userSessions := [("u1",
      { socketId := "s1", teamIds := [], lastActivity := 0 })] }

/-- User `u1` joins the `general` room of team `T`. -/
def c4Join1 : WSState × List Emit :=
  handleJoinTeamRoom c4State "s1" "u1" "T" "general" true "f1" 1

/-- User `u1` joins the same room a second time. -/
def c4Join2 : WSState × List Emit :=
  handleJoinTeamRoom c4Join1.1 "s1" "u1" "T" "general" true "f2" 2

/-- The state `handleDisconnection` leaves behind when the creator `u1` of
session `sess1` disconnects while `u2`, `u3` are still participants: the
session is `ended` but its participant set still holds `u2` and `u3`. -/
def c6State : WSState :=
  { emptyState with
    connectedSockets := ["s2", "s3"],
    ioRooms := [("collaboration_sess1", ["s2", "s3"])],
    collaborationSessions := [("sess1",
      { id := "sess1", teamId := "T", stype := "whiteboard",
        createdBy := "u1", participants := ["u2", "u3"],
        status := "ended", lastActivity := 5, endedAt := some 5 })] }

/-- An active session `w1` created by `a` with participants `a` and `b`,
whose sockets both joined the session room. -/
def c6WitSess : CollabSession :=
  { id := "w1", teamId := "T", stype := "whiteboard", createdBy := "a",
    participants := ["a", "b"], status := "active", lastActivity := 3,
    endedAt := none }

def c6WitState : WSState :=
  { emptyState with
    connectedSockets := ["sa", "sb"],
    ioRooms := [("collaboration_w1", ["sa", "sb"])],
    collaborationSessions := [("w1", c6WitSess)] }

/-- One user `u1` on socket `s1`, about to join a room of team `T`. -/
def c7State : WSState :=
  { emptyState with
    connectedSockets := ["s1"],
    socketUsers := [("s1",
      { userId := "u1", socketId := "s1", isMobileActive := false })],
    userSessions := [("u1",
      { socketId := "s1", teamIds := [], lastActivity := 0 })] }

/-- User `u1` joins `team_T_general`, creating the upstream `team_events`
subscription and the three realtime channels. -/
def c7Join : WSState × List Emit :=
  handleJoinTeamRoom c7State "s1" "u1" "T" "general" true "f1" 1

/-- User `u1` — the room's sole member — disconnects. -/
def c7After : WSState × List Emit := handleDisconnection c7Join.1 "s1" "u1" 2

/-- One mobile user `u1` on socket `s1`. -/
def c8State : WSState :=
  { emptyState with
    connectedSockets := ["s1"],
    socketUsers := [("s1",
      { userId := "u1", socketId := "s1", isMobileActive := true })],
    userSessions := [("u1",
      { socketId := "s1", teamIds := [], lastActivity := 0 })] }

def c8StreamId : String := "analytics_T_mood_s1"

/-- User `u1` subscribes to mood analytics for team `T`. -/
def c8Sub : WSState × List Emit :=
  handleSubscribeAnalytics c8State "s1" "u1" "T" "mood" "24h" true 0

/-- The app is backgrounded: the subscription is paused. -/
def c8Paused : WSState := handleMobileBlur c8Sub.1 "s1" "u1"

/-- The 30-second interval fires once while paused. -/
def c8Tick1 : WSState × List Emit := analyticsTick c8Paused c8StreamId "s1" 30

/-- The app is foregrounded again: the subscription is resumed. -/
def c8Resumed : WSState := handleMobileFocus c8Tick1.1 "s1" "u1"

/-- The next scheduled tick after the resume. -/
def c8Tick2 : WSState × List Emit :=
  analyticsTick c8Resumed c8StreamId "s1" 60

/-- Users `A` and `B` are present in `team_T_general` (members of the room
record, sockets joined to the adapter room); user `C` on socket `sC` is
about to join. -/
def c9State : WSState :=
  { emptyState with
    connectedSockets := ["sA", "sB", "sC"],
    ioRooms := [("team_T_general", ["sA", "sB"])],
    rooms := [("team_T_general",
      { id := "team_T_general", teamId := "T", rtype := "general",
        members := ["A", "B"], createdAt := 0, lastActivity := 0 })],
    userSessions := [("C",
      { socketId := "sC", teamIds := [], lastActivity := 0 })] }

/-- User `C` joins `team_T_general`. -/
def c9Join : WSState × List Emit :=
  handleJoinTeamRoom c9State "sC" "C" "T" "general" true "f1" 3

/-- Two users `u1`, `u2` sharing a room and a collaboration session, with
one analytics stream owned by `u1`'s socket `s1`. -/
def c2State : WSState :=
  { emptyState with
    connectedSockets := ["s1", "s2"],
    ioRooms := [("team_T_general", ["s1", "s2"]),
                ("collaboration_k1", ["s1", "s2"])],
    rooms := [("team_T_general",
      { id := "team_T_general", teamId := "T", rtype := "general",
        members := ["u1", "u2"], createdAt := 0, lastActivity := 0 })],
    userSessions := [("u1",
      { socketId := "s1", teamIds := ["T"], lastActivity := 0 }),
      ("u2", { socketId := "s2", teamIds := ["T"], lastActivity := 0 })],
    socketUsers := [("s1",
      { userId := "u1", socketId := "s1", isMobileActive := false }),
      ("s2", { userId := "u2", socketId := "s2", isMobileActive := false })],
    activeStreams := [("analytics_T_mood_s1",
      { id := "analytics_T_mood_s1", socketId := some "s1",
        userId := some "u1", teamId := "T", roomId := none,
        stype := "analytics", chartType := some "mood",
        period := some "24h", isActive := true, isPaused := false,
        lastUpdate := 0 })],
    collaborationSessions := [("k1",
      { id := "k1", teamId := "T", stype := "document", createdBy := "u2",
        participants := ["u2", "u1"], status := "active",
        lastActivity := 0, endedAt := none })],
    timers := [("analytics_T_mood_s1", "s1")] }

/-- One unrelated room (team `S`, member `u2`) and a fresh user `u1` who
is not in any room. -/
def c3State : WSState :=
  { emptyState with
    connectedSockets := ["s1", "s2"],
    ioRooms := [("team_S_general", ["s2"])],
    rooms := [("team_S_general",
      { id := "team_S_general", teamId := "S", rtype := "general",
        members := ["u2"], createdAt := 0, lastActivity := 0 })],
    userSessions := [("u1",
      { socketId := "s1", teamIds := [], lastActivity := 0 })] }

/-- Session `m1` created by `u1` with `u2`, `u3` joined; all three
sockets are in the session room. -/
def c5State : WSState :=
  { emptyState with
    connectedSockets := ["s1", "s2", "s3"],
    ioRooms := [("collaboration_m1", ["s1", "s2", "s3"])],
    userSessions := [("u1",
      { socketId := "s1", teamIds := ["T"], lastActivity := 0 }),
      ("u2", { socketId := "s2", teamIds := ["T"], lastActivity := 0 }),
      ("u3", { socketId := "s3", teamIds := ["T"], lastActivity := 0 })],
    socketUsers := [("s1",
      { userId := "u1", socketId := "s1", isMobileActive := false }),
      ("s2", { userId := "u2", socketId := "s2", isMobileActive := false }),
      ("s3", { userId := "u3", socketId := "s3", isMobileActive := false })],
    collaborationSessions := [("m1",
      { id := "m1", teamId := "T", stype := "meeting", createdBy := "u1",
        participants := ["u1", "u2", "u3"], status := "active",
        lastActivity := 0, endedAt := none })] }

/-! ### Theorems -/

@[simp] theorem mapGet_nil {α : Type} (k : String) :
    mapGet ([] : List (String × α)) k = none := rfl

theorem mapGet_cons {α : Type} (p : String × α) (m : List (String × α))
    (k : String) :
    mapGet (p :: m) k = if p.1 = k then some p.2 else mapGet m k := rfl

@[simp] theorem mapGet_mapSet_self {α : Type} (m : List (String × α))
    (k : String) (v : α) : mapGet (mapSet m k v) k = some v := by
  induction m with
  | nil => simp [mapGet, mapSet]
  | cons p rest ih =>
    by_cases h : p.1 = k <;> simp [mapGet, mapSet, h, ih]

theorem mapGet_mapSet_ne {α : Type} (m : List (String × α))
    (k k' : String) (v : α) (h : k' ≠ k) :
    mapGet (mapSet m k v) k' = mapGet m k' := by
  have hk : ¬ (k = k') := fun hh => h hh.symm
  induction m with
  | nil => simp [mapGet, mapSet, hk]
  | cons p rest ih =>
    by_cases hp : p.1 = k
    · have hp' : ¬ (p.1 = k') := by rw [hp]; exact hk
      simp [mapSet, hp, mapGet, hk, hp']
    · simp [mapSet, hp, mapGet, ih]

@[simp] theorem mapGet_mapDelete_self {α : Type} (m : List (String × α))
    (k : String) : mapGet (mapDelete m k) k = none := by
  induction m with
  | nil => rfl
  | cons p rest ih =>
    by_cases h : p.1 = k <;> simp [mapDelete, h, mapGet, ih]

theorem mapGet_mapDelete_ne {α : Type} (m : List (String × α))
    (k k' : String) (h : k' ≠ k) :
    mapGet (mapDelete m k) k' = mapGet m k' := by
  induction m with
  | nil => rfl
  | cons p rest ih =>
    by_cases hp : p.1 = k
    · have hk : ¬ (k = k') := fun hh => h hh.symm
      have hp' : ¬ (p.1 = k') := by rw [hp]; exact hk
      simp [mapDelete, hp, mapGet, hp', hk, ih]
    · simp [mapDelete, hp, mapGet, ih]

theorem mem_mapSet {α : Type} {m : List (String × α)} {k : String} {v : α}
    {p : String × α} (h : p ∈ mapSet m k v) : p = (k, v) ∨ p ∈ m := by
  induction m with
  | nil => simpa [mapSet] using h
  | cons q rest ih =>
    by_cases hq : q.1 = k
    · rcases (by simpa [mapSet, hq] using h : p = (k, v) ∨ p ∈ rest) with h1 | h1
      · exact Or.inl h1
      · exact Or.inr (List.mem_cons_of_mem _ h1)
    · rcases (by simpa [mapSet, hq] using h : p = q ∨ p ∈ mapSet rest k v)
        with h1 | h1
      · exact Or.inr (by rw [h1]; exact List.mem_cons_self q rest)
      · rcases ih h1 with h2 | h2
        · exact Or.inl h2
        · exact Or.inr (List.mem_cons_of_mem _ h2)

theorem mem_mapDelete {α : Type} {m : List (String × α)} {k : String}
    {p : String × α} : p ∈ mapDelete m k ↔ p ∈ m ∧ p.1 ≠ k := by
  induction m with
  | nil => simp [mapDelete]
  | cons q rest ih =>
    by_cases hq : q.1 = k
    · have hd : mapDelete (q :: rest) k = mapDelete rest k := by
        simp [mapDelete, hq]
      rw [hd, ih]
      constructor
      · rintro ⟨hm, hne⟩
        exact ⟨List.mem_cons_of_mem _ hm, hne⟩
      · rintro ⟨h1, hne⟩
        rcases List.mem_cons.mp h1 with h2 | h2
        · rw [h2] at hne; exact absurd hq hne
        · exact ⟨h2, hne⟩
    · have hd : mapDelete (q :: rest) k = q :: mapDelete rest k := by
        simp [mapDelete, hq]
      rw [hd]
      constructor
      · intro h1
        rcases List.mem_cons.mp h1 with h2 | h2
        · subst h2; exact ⟨List.mem_cons_self _ _, hq⟩
        · rcases ih.mp h2 with ⟨hm, hne⟩
          exact ⟨List.mem_cons_of_mem _ hm, hne⟩
      · rintro ⟨h1, hne⟩
        rcases List.mem_cons.mp h1 with h2 | h2
        · rw [h2]; exact List.mem_cons_self _ _
        · exact List.mem_cons_of_mem _ (ih.mpr ⟨h2, hne⟩)

@[simp] theorem mem_setErase {l : List String} {x y : String} :
    y ∈ setErase l x ↔ y ∈ l ∧ y ≠ x := by
  simp [setErase, List.mem_filter]

theorem setInsert_of_mem {l : List String} {x : String} (h : x ∈ l) :
    setInsert l x = l := by
  simp [setInsert, h]

theorem setInsert_of_not_mem {l : List String} {x : String} (h : ¬ x ∈ l) :
    setInsert l x = l ++ [x] := by
  simp [setInsert, h]

theorem mem_setInsert_self (l : List String) (x : String) :
    x ∈ setInsert l x := by
  by_cases h : x ∈ l <;> simp [setInsert, h]

theorem setInsert_ne_nil (l : List String) (x : String) :
    setInsert l x ≠ [] := by
  by_cases h : x ∈ l
  · rw [setInsert_of_mem h]
    rintro rfl
    simp at h
  · rw [setInsert_of_not_mem h]
    simp


theorem mapSet_of_none {α : Type} {m : List (String × α)} {k : String}
    (v : α) (h : mapGet m k = none) : mapSet m k v = m ++ [(k, v)] := by
  induction m with
  | nil => rfl
  | cons p rest ih =>
    by_cases hp : p.1 = k
    · rw [mapGet_cons, if_pos hp] at h
      exact absurd h (by simp)
    · rw [mapGet_cons, if_neg hp] at h
      simp [mapSet, hp, ih h]

theorem mapSet_mapSet {α : Type} (m : List (String × α)) (k : String)
    (v v2 : α) : mapSet (mapSet m k v) k v2 = mapSet m k v2 := by
  induction m with
  | nil => simp [mapSet]
  | cons p rest ih =>
    by_cases hp : p.1 = k <;> simp [mapSet, hp, ih]

theorem mapGet_eq_none_of_not_mem_keys {α : Type} {m : List (String × α)}
    {k : String} (h : ¬ k ∈ m.map Prod.fst) : mapGet m k = none := by
  induction m with
  | nil => rfl
  | cons p rest ih =>
    simp only [List.map_cons, List.mem_cons] at h
    push_neg at h
    rw [mapGet_cons, if_neg (fun hh => h.1 hh.symm)]
    exact ih h.2

theorem not_mem_keys_of_mapGet_eq_none {α : Type} {m : List (String × α)}
    {k : String} (h : mapGet m k = none) : ¬ k ∈ m.map Prod.fst := by
  induction m with
  | nil => simp
  | cons p rest ih =>
    by_cases hp : p.1 = k
    · rw [mapGet_cons, if_pos hp] at h
      exact absurd h (by simp)
    · rw [mapGet_cons, if_neg hp] at h
      simp only [List.map_cons, List.mem_cons]
      push_neg
      exact ⟨fun hh => hp hh.symm, ih h⟩

theorem eq_entry_of_mem_of_nodup {α : Type} {m : List (String × α)}
    {k : String} {v : α} (hnd : (m.map Prod.fst).Nodup)
    (hget : mapGet m k = some v) {p : String × α} (hp : p ∈ m)
    (hk : p.1 = k) : p = (k, v) := by
  induction m with
  | nil => simp at hp
  | cons q rest ih =>
    simp only [List.map_cons, List.nodup_cons] at hnd
    rcases List.mem_cons.mp hp with h2 | h2
    · subst h2
      rw [mapGet_cons, if_pos hk] at hget
      have hv : p.2 = v := by injection hget
      calc p = (p.1, p.2) := rfl
        _ = (k, v) := by rw [hk, hv]
    · by_cases hq : q.1 = k
      · exfalso
        apply hnd.1
        rw [hq, ← hk]
        exact List.mem_map.mpr ⟨p, h2, rfl⟩
      · rw [mapGet_cons, if_neg hq] at hget
        exact ih hnd.2 hget h2

theorem mapGet_filter_eq_none {α : Type} {m : List (String × α)}
    {k : String} {v : α} (pred : String × α → Bool)
    (hnd : (m.map Prod.fst).Nodup) (hget : mapGet m k = some v)
    (hp : pred (k, v) = false) :
    mapGet (m.filter pred) k = none := by
  apply mapGet_eq_none_of_not_mem_keys
  intro hk
  rcases List.mem_map.mp hk with ⟨p, hpm, hkey⟩
  rcases List.mem_filter.mp hpm with ⟨hm, hpred⟩
  have := eq_entry_of_mem_of_nodup hnd hget hm hkey
  rw [this] at hpred
  rw [hp] at hpred
  exact Bool.false_ne_true hpred

theorem filter_key_eq_nil_of_mapGet_eq_none {α : Type}
    {m : List (String × α)} {k : String} (h : mapGet m k = none) :
    m.filter (fun p => decide (p.1 = k)) = [] := by
  rw [List.filter_eq_nil_iff]
  intro p hp
  simp only [decide_eq_true_eq]
  intro hk
  exact not_mem_keys_of_mapGet_eq_none h (List.mem_map.mpr ⟨p, hp, hk⟩)

theorem mem_setInsert_of_mem {l : List String} {x y : String} (h : x ∈ l) :
    x ∈ setInsert l y := by
  by_cases hy : y ∈ l
  · rwa [setInsert_of_mem hy]
  · rw [setInsert_of_not_mem hy]
    exact List.mem_append_left _ h

theorem roomSockets_ioJoin_self (io : List (String × List String))
    (room sid : String) :
    roomSockets (ioJoin io room sid) room
      = setInsert (roomSockets io room) sid := by
  unfold ioJoin
  cases hio : mapGet io room with
  | none => simp [roomSockets, hio, setInsert]
  | some l => simp [roomSockets, hio]

theorem roomSockets_mapErase (l : List (String × List String))
    (room sid : String) :
    roomSockets (l.map
        (fun (p : String × List String) => (p.1, setErase p.2 sid))) room
      = setErase (roomSockets l room) sid := by
  induction l with
  | nil => simp [roomSockets, mapGet, setErase]
  | cons p rest ih =>
    by_cases h : p.1 = room
    · simp [roomSockets, mapGet, h]
    · simpa [roomSockets, mapGet, h] using ih

theorem handleDisconnection_socketUsers (st : WSState) (sid uid : String)
    (now : Nat) :
    (handleDisconnection st sid uid now).1.socketUsers
      = mapDelete st.socketUsers sid := rfl

theorem handleDisconnection_userSessions (st : WSState) (sid uid : String)
    (now : Nat) :
    (handleDisconnection st sid uid now).1.userSessions
      = mapDelete st.userSessions uid := rfl

theorem handleDisconnection_connectedSockets (st : WSState)
    (sid uid : String) (now : Nat) :
    (handleDisconnection st sid uid now).1.connectedSockets
      = setErase st.connectedSockets sid := rfl

theorem handleDisconnection_ioRooms (st : WSState) (sid uid : String)
    (now : Nat) :
    (handleDisconnection st sid uid now).1.ioRooms
      = st.ioRooms.map
          (fun (p : String × List String) => (p.1, setErase p.2 sid)) := rfl

theorem handleDisconnection_rooms (st : WSState) (sid uid : String)
    (now : Nat) :
    (handleDisconnection st sid uid now).1.rooms
      = (disconnectRooms st.rooms sid uid).1 := rfl

theorem handleDisconnection_activeStreams (st : WSState) (sid uid : String)
    (now : Nat) :
    (handleDisconnection st sid uid now).1.activeStreams
      = st.activeStreams.filter
          (fun p => decide (p.2.socketId ≠ some sid)) := rfl

theorem handleDisconnection_collabs (st : WSState) (sid uid : String)
    (now : Nat) :
    (handleDisconnection st sid uid now).1.collaborationSessions
      = (disconnectCollabs st.collaborationSessions sid uid now).1 := rfl

theorem handleDisconnection_rtChannels (st : WSState) (sid uid : String)
    (now : Nat) :
    (handleDisconnection st sid uid now).1.rtChannels = st.rtChannels := rfl

theorem handleDisconnection_emits (st : WSState) (sid uid : String)
    (now : Nat) :
    (handleDisconnection st sid uid now).2
      = (disconnectRooms st.rooms sid uid).2
          ++ (disconnectCollabs st.collaborationSessions sid uid now).2 := rfl

theorem subscribeToTeamEvents_rooms (st : WSState)
    (teamId roomId freshId : String) (now : Nat) :
    (subscribeToTeamEvents st teamId roomId freshId now).rooms = st.rooms := by
  unfold subscribeToTeamEvents
  by_cases h : st.activeStreams.any
      (fun p => p.2.teamId == teamId && p.2.stype == "team_events") <;>
    simp [h]

theorem subscribeToTeamEvents_ioRooms (st : WSState)
    (teamId roomId freshId : String) (now : Nat) :
    (subscribeToTeamEvents st teamId roomId freshId now).ioRooms
      = st.ioRooms := by
  unfold subscribeToTeamEvents
  by_cases h : st.activeStreams.any
      (fun p => p.2.teamId == teamId && p.2.stype == "team_events") <;>
    simp [h]

theorem checkRateLimit_saturated (e : RateLimitRec)
    (maxEvents windowMs t : Nat) (hwin : t - e.windowStart ≤ windowMs)
    (hc : maxEvents ≤ e.count) :
    checkWebSocketRateLimit (some e) maxEvents windowMs t = (false, e) := by
  have hg : ¬ (windowMs < t - e.windowStart) := by omega
  simp [checkWebSocketRateLimit, hg, hc]

theorem checkRateLimit_within (e : RateLimitRec)
    (maxEvents windowMs t : Nat) (hwin : t - e.windowStart ≤ windowMs)
    (hc : e.count < maxEvents) :
    checkWebSocketRateLimit (some e) maxEvents windowMs t
      = (true, { count := e.count + 1, windowStart := e.windowStart }) := by
  have hg : ¬ (windowMs < t - e.windowStart) := by omega
  have hc' : ¬ (maxEvents ≤ e.count) := by omega
  simp [checkWebSocketRateLimit, hg, hc']

theorem rateLimitRun_exact (maxEvents windowMs : Nat) (ts : List Nat) :
    ∀ e : RateLimitRec, e.count ≤ maxEvents →
      (∀ t ∈ ts, t - e.windowStart ≤ windowMs) →
      (rateLimitRun e maxEvents windowMs ts).1
          = (rateLimitRun e maxEvents windowMs ts).2.count - e.count ∧
      e.count ≤ (rateLimitRun e maxEvents windowMs ts).2.count ∧
      (rateLimitRun e maxEvents windowMs ts).2.count ≤ maxEvents ∧
      (rateLimitRun e maxEvents windowMs ts).2.count ≤ e.count + ts.length ∧
      (maxEvents ≤ e.count + ts.length →
        (rateLimitRun e maxEvents windowMs ts).2.count = maxEvents) ∧
      (rateLimitRun e maxEvents windowMs ts).2.windowStart = e.windowStart := by
  induction ts with
  | nil =>
    intro e hc h
    refine ⟨(Nat.sub_self _).symm, Nat.le_refl _, hc, Nat.le_add_right _ _,
      ?_, rfl⟩
    intro h2
    simp only [List.length_nil, Nat.add_zero] at h2
    exact Nat.le_antisymm hc h2
  | cons t ts ih =>
    intro e hc h
    have ht : t - e.windowStart ≤ windowMs := h t (List.mem_cons_self _ _)
    have hrest : ∀ t' ∈ ts, t' - e.windowStart ≤ windowMs :=
      fun t' h' => h t' (List.mem_cons_of_mem _ h')
    by_cases hsat : maxEvents ≤ e.count
    · have heq := checkRateLimit_saturated e maxEvents windowMs t ht hsat
      have hr := ih e hc hrest
      have hstep : rateLimitRun e maxEvents windowMs (t :: ts)
          = (0 + (rateLimitRun e maxEvents windowMs ts).1,
             (rateLimitRun e maxEvents windowMs ts).2) := by
        simp [rateLimitRun, heq]
      rw [hstep]
      simp only [List.length_cons]
      omega
    · have heq := checkRateLimit_within e maxEvents windowMs t ht (by omega)
      have hr := ih (RateLimitRec.mk (e.count + 1) e.windowStart)
        (show e.count + 1 ≤ maxEvents by omega) (fun t' h' => hrest t' h')
      dsimp only at hr
      have hstep : rateLimitRun e maxEvents windowMs (t :: ts)
          = (1 + (rateLimitRun (RateLimitRec.mk (e.count + 1) e.windowStart)
                maxEvents windowMs ts).1,
             (rateLimitRun (RateLimitRec.mk (e.count + 1) e.windowStart)
                maxEvents windowMs ts).2) := by
        simp [rateLimitRun, heq]
      rw [hstep]
      simp only [List.length_cons]
      omega

/-- C10: for a fixed `(userId, eventType)` key, the call that starts a
window (fresh key, or a call after the previous window expired) returns
`true` with count reset to 1; over any further calls inside the same
window the total number of `true` results is at most `maxEvents`; and
once the window's calls have reached `maxEvents`, every further call in
the window returns `false` and leaves the record unchanged. -/
theorem C10_rateLimit_window (maxEvents windowMs t0 : Nat) (ts : List Nat)
    (hmax : 1 ≤ maxEvents) (hts : ∀ t ∈ ts, t - t0 ≤ windowMs) :
    checkWebSocketRateLimit none maxEvents windowMs t0
        = (true, { count := 1, windowStart := t0 }) ∧
    (∀ e : RateLimitRec, windowMs < t0 - e.windowStart →
        checkWebSocketRateLimit (some e) maxEvents windowMs t0
          = (true, { count := 1, windowStart := t0 })) ∧
    1 + (rateLimitRun { count := 1, windowStart := t0 }
          maxEvents windowMs ts).1 ≤ maxEvents ∧
    (maxEvents ≤ 1 + ts.length →
      ∀ t' : Nat, t' - t0 ≤ windowMs →
        checkWebSocketRateLimit
          (some (rateLimitRun { count := 1, windowStart := t0 }
                  maxEvents windowMs ts).2) maxEvents windowMs t'
          = (false, (rateLimitRun { count := 1, windowStart := t0 }
                      maxEvents windowMs ts).2)) := by
  have hrun := rateLimitRun_exact maxEvents windowMs ts
    { count := 1, windowStart := t0 } hmax hts
  dsimp only at hrun
  obtain ⟨ha, hb, hc2, hd, he2, hf⟩ := hrun
  refine ⟨rfl, ?_, ?_, ?_⟩
  · intro e he
    simp [checkWebSocketRateLimit, he]
  · omega
  · intro hlen t' ht'
    have hcount := he2 hlen
    apply checkRateLimit_saturated
    · rw [hf]; exact ht'
    · omega

/-- Witness for C10 at `maxEvents = 2`, `windowMs = 10`, a window starting
at `t0 = 100` and three further in-window calls. -/
theorem C10_rateLimit_window_witness :
    (1 ≤ 2 ∧ ∀ t ∈ [103, 105, 107], t - 100 ≤ 10) ∧
    (checkWebSocketRateLimit none 2 10 100
        = (true, { count := 1, windowStart := 100 }) ∧
    (∀ e : RateLimitRec, 10 < 100 - e.windowStart →
        checkWebSocketRateLimit (some e) 2 10 100
          = (true, { count := 1, windowStart := 100 })) ∧
    1 + (rateLimitRun { count := 1, windowStart := 100 }
          2 10 [103, 105, 107]).1 ≤ 2 ∧
    (2 ≤ 1 + [103, 105, 107].length →
      ∀ t' : Nat, t' - 100 ≤ 10 →
        checkWebSocketRateLimit
          (some (rateLimitRun { count := 1, windowStart := 100 }
                  2 10 [103, 105, 107]).2) 2 10 t'
          = (false, (rateLimitRun { count := 1, windowStart := 100 }
                      2 10 [103, 105, 107]).2))) :=
  ⟨⟨by decide, by decide⟩,
   C10_rateLimit_window 2 10 100 [103, 105, 107] (by decide) (by decide)⟩

/-- C6 counterexample: in `c6State` session `sess1` has `status = ended`
yet still lists `u2` as participant (exactly what `handleDisconnection`
leaves after the creator quits); an event from `u2` is nevertheless
relayed to the session room and the session's `lastActivity` is mutated —
so the claim's "rejected whenever the session's status is not active, no
relay and no state mutation once ended" is false on the code. -/
theorem C6_counterexample :
    (mapGet c6State.collaborationSessions "sess1").map (fun s2 => s2.status)
        = some "ended" ∧
    (handleCollaborationEvent c6State "s2" "u2" "sess1" "edit" 9).2
        = [Emit.toRoomExcept "collaboration_sess1" "s2" "collaboration_event"
            (Payload.collabEvent "sess1" "edit" "u2")] ∧
    (handleCollaborationEvent c6State "s2" "u2" "sess1" "edit" 9).1
        ≠ c6State := by
  refine ⟨by decide, by decide, by decide⟩

/-- C6 (amended): a collaboration event is relayed to the session room —
every participant socket in that room other than the sender receives it
exactly once — whenever the sender is a current participant, regardless
of the session's status; it is rejected with a scoped error and no state
change exactly when the session does not exist or the sender is not a
current participant.  The `status = active` check the claim describes is
absent from the code. -/
theorem C6_collab_event_relay (st : WSState)
    (sid uid sessionId eventType : String) (now : Nat) :
    (∀ sess : CollabSession,
      mapGet st.collaborationSessions sessionId = some sess →
      uid ∈ sess.participants →
      (handleCollaborationEvent st sid uid sessionId eventType now).2
          = [Emit.toRoomExcept ("collaboration_" ++ sessionId) sid
              "collaboration_event"
              (Payload.collabEvent sessionId eventType uid)] ∧
      ((handleCollaborationEvent st sid uid sessionId eventType now).1).collaborationSessions
          = mapSet st.collaborationSessions sessionId
              { sess with lastActivity := now } ∧
      (∀ sp : String,
        sp ∈ roomSockets st.ioRooms ("collaboration_" ++ sessionId) →
        sp ≠ sid →
        ((handleCollaborationEvent st sid uid sessionId eventType now).2.filter
            (fun e => deliveredTo st.ioRooms sp e)).length = 1)) ∧
    (mapGet st.collaborationSessions sessionId = none →
      (handleCollaborationEvent st sid uid sessionId eventType now).1 = st ∧
      (handleCollaborationEvent st sid uid sessionId eventType now).2
          = [Emit.toSocket sid "error"
              (Payload.errorMsg "Not part of this collaboration session")]) ∧
    (∀ sess : CollabSession,
      mapGet st.collaborationSessions sessionId = some sess →
      ¬ uid ∈ sess.participants →
      (handleCollaborationEvent st sid uid sessionId eventType now).1 = st ∧
      (handleCollaborationEvent st sid uid sessionId eventType now).2
          = [Emit.toSocket sid "error"
              (Payload.errorMsg "Not part of this collaboration session")]) := by
  refine ⟨?_, ?_, ?_⟩
  · intro sess hs hmem
    simp only [handleCollaborationEvent, hs, if_pos hmem]
    refine ⟨trivial, trivial, ?_⟩
    intro sp hsp hne
    simp [deliveredTo, hsp, hne]
  · intro hs
    simp [handleCollaborationEvent, hs]
  · intro sess hs hmem
    simp [handleCollaborationEvent, hs, if_neg hmem]

/-- Witness for C6 on the concrete active session `w1` of `c6WitState`:
participant `a` (socket `sa`) relays to `b` (socket `sb`) exactly once;
non-participant `x` is rejected without state change. -/
theorem C6_collab_event_relay_witness :
    ((handleCollaborationEvent c6WitState "sa" "a" "w1" "cursor" 7).2
        = [Emit.toRoomExcept "collaboration_w1" "sa" "collaboration_event"
            (Payload.collabEvent "w1" "cursor" "a")] ∧
     ((handleCollaborationEvent c6WitState "sa" "a" "w1" "cursor" 7).2.filter
        (fun e => deliveredTo c6WitState.ioRooms "sb" e)).length = 1) ∧
    ((handleCollaborationEvent c6WitState "sx" "x" "w1" "cursor" 7).1
        = c6WitState ∧
     (handleCollaborationEvent c6WitState "sx" "x" "w1" "cursor" 7).2
        = [Emit.toSocket "sx" "error"
            (Payload.errorMsg "Not part of this collaboration session")]) := by
  have h1 := (C6_collab_event_relay c6WitState "sa" "a" "w1" "cursor" 7).1
    c6WitSess (by decide) (by decide)
  have h2 := (C6_collab_event_relay c6WitState "sx" "x" "w1" "cursor" 7).2.2
    c6WitSess (by decide) (by decide)
  exact ⟨⟨h1.1, h1.2.2 "sb" (by decide) (by decide)⟩, h2⟩

theorem mapGet_append_of_none {α : Type} {m : List (String × α)}
    {k : String} (l : List (String × α)) (h : mapGet m k = none) :
    mapGet (m ++ l) k = mapGet l k := by
  induction m with
  | nil => rfl
  | cons p rest ih =>
    by_cases hp : p.1 = k
    · rw [mapGet_cons, if_pos hp] at h
      exact absurd h (by simp)
    · rw [mapGet_cons, if_neg hp] at h
      simpa [mapGet, hp] using ih h

theorem mapSet_append_single {α : Type} {m : List (String × α)}
    {k : String} (w v : α) (h : mapGet m k = none) :
    mapSet (m ++ [(k, w)]) k v = m ++ [(k, v)] := by
  induction m with
  | nil => simp [mapSet]
  | cons p rest ih =>
    by_cases hp : p.1 = k
    · rw [mapGet_cons, if_pos hp] at h
      exact absurd h (by simp)
    · rw [mapGet_cons, if_neg hp] at h
      simp [mapSet, hp, ih h]

/-- Joining a room that already exists: the registry binds the room id to
the old record with the user added (a JS `Set.add`) and a fresh
`lastActivity`; the handler broadcasts the join delta to the room (sender
excluded) and then confirms to the joiner with the updated member count. -/
theorem handleJoinTeamRoom_existing (st : WSState)
    (sid uid teamId rtype freshId : String) (now : Nat) (r : Room)
    (hteam : teamId ≠ "")
    (hr : mapGet st.rooms ("team_" ++ teamId ++ "_" ++ rtype) = some r) :
    (handleJoinTeamRoom st sid uid teamId rtype true freshId now).1.rooms
      = mapSet st.rooms ("team_" ++ teamId ++ "_" ++ rtype)
          { r with members := setInsert r.members uid,
                   lastActivity := now } ∧
    (handleJoinTeamRoom st sid uid teamId rtype true freshId now).2
      = [Emit.toRoomExcept ("team_" ++ teamId ++ "_" ++ rtype) sid
          "user_joined_room"
          (Payload.userJoinedRoom ("team_" ++ teamId ++ "_" ++ rtype) uid),
         Emit.toSocket sid "room_joined"
          (Payload.roomJoined ("team_" ++ teamId ++ "_" ++ rtype) teamId
            rtype (setInsert r.members uid).length)] := by
  unfold handleJoinTeamRoom
  rw [if_neg hteam, if_neg (by simp : ¬ (true = false))]
  simp [hr, subscribeToTeamEvents_rooms]

/-- Joining a room with no record yet: a record is appended whose member
set is exactly the joiner. -/
theorem handleJoinTeamRoom_fresh (st : WSState)
    (sid uid teamId rtype freshId : String) (now : Nat)
    (hteam : teamId ≠ "")
    (hfresh : mapGet st.rooms ("team_" ++ teamId ++ "_" ++ rtype) = none) :
    (handleJoinTeamRoom st sid uid teamId rtype true freshId now).1.rooms
      = st.rooms ++ [("team_" ++ teamId ++ "_" ++ rtype,
          { id := "team_" ++ teamId ++ "_" ++ rtype, teamId := teamId,
            rtype := rtype, members := [uid], createdAt := now,
            lastActivity := now })] ∧
    (handleJoinTeamRoom st sid uid teamId rtype true freshId now).2
      = [Emit.toRoomExcept ("team_" ++ teamId ++ "_" ++ rtype) sid
          "user_joined_room"
          (Payload.userJoinedRoom ("team_" ++ teamId ++ "_" ++ rtype) uid),
         Emit.toSocket sid "room_joined"
          (Payload.roomJoined ("team_" ++ teamId ++ "_" ++ rtype) teamId
            rtype 1)] := by
  unfold handleJoinTeamRoom
  rw [if_neg hteam, if_neg (by simp : ¬ (true = false))]
  simp [hfresh, subscribeToTeamEvents_rooms, mapSet_of_none _ hfresh,
    mapGet_append_of_none _ hfresh, mapSet_append_single _ _ hfresh,
    mapGet, setInsert]

/-- The adapter-room effect of a join is exactly `socket.join(roomId)`. -/
theorem handleJoinTeamRoom_ioRooms (st : WSState)
    (sid uid teamId rtype freshId : String) (now : Nat)
    (hteam : teamId ≠ "") :
    (handleJoinTeamRoom st sid uid teamId rtype true freshId now).1.ioRooms
      = ioJoin st.ioRooms ("team_" ++ teamId ++ "_" ++ rtype) sid := by
  unfold handleJoinTeamRoom
  rw [if_neg hteam, if_neg (by simp : ¬ (true = false))]
  simp [subscribeToTeamEvents_ioRooms]

/-- C4 counterexample: `u1` joins `team_T_general` twice; the member
count stays 1, but `user_joined_room` is broadcast on BOTH calls — two
join broadcasts, not the single one the claim promises. -/
theorem C4_counterexample :
    ((c4Join1.2 ++ c4Join2.2).filter
        (fun e => decide (emitEvent e = some "user_joined_room"))).length
      = 2 ∧
    (mapGet c4Join2.1.rooms "team_T_general").map
        (fun r => r.members.length) = some 1 := by
  refine ⟨by decide, by decide⟩

/-- C4 (amended): re-joining a room the user is already a member of
leaves the room's member set (hence its count) unchanged, but the join
notification is re-broadcast unconditionally — every join call, repeat or
not, emits exactly one `user_joined_room` broadcast to the room, so two
calls yield two broadcasts. -/
theorem C4_rejoin (st : WSState)
    (sid uid teamId rtype freshId : String) (now : Nat) (r : Room)
    (hteam : teamId ≠ "")
    (hr : mapGet st.rooms ("team_" ++ teamId ++ "_" ++ rtype) = some r)
    (hmem : uid ∈ r.members) :
    (mapGet (handleJoinTeamRoom st sid uid teamId rtype true freshId
        now).1.rooms ("team_" ++ teamId ++ "_" ++ rtype)).map
        (fun r2 => r2.members) = some r.members ∧
    ((handleJoinTeamRoom st sid uid teamId rtype true freshId now).2.filter
        (fun e => decide (emitEvent e = some "user_joined_room"))).length
      = 1 := by
  have h := handleJoinTeamRoom_existing st sid uid teamId rtype freshId
    now r hteam hr
  constructor
  · rw [h.1, mapGet_mapSet_self]
    simp [setInsert_of_mem hmem]
  · rw [h.2]
    simp [emitEvent]

/-- Witness for C4 at the concrete second join of `c4Join2`. -/
theorem C4_rejoin_witness :
    ("T" ≠ "" ∧
      mapGet c4Join1.1.rooms "team_T_general"
        = some { id := "team_T_general", teamId := "T", rtype := "general",
                 members := ["u1"], createdAt := 1, lastActivity := 1 } ∧
      "u1" ∈ ["u1"]) ∧
    ((mapGet (handleJoinTeamRoom c4Join1.1 "s1" "u1" "T" "general" true
        "f2" 2).1.rooms ("team_" ++ "T" ++ "_" ++ "general")).map
        (fun r2 => r2.members) = some ["u1"] ∧
     ((handleJoinTeamRoom c4Join1.1 "s1" "u1" "T" "general" true
        "f2" 2).2.filter
        (fun e => decide (emitEvent e = some "user_joined_room"))).length
      = 1) := by
  refine ⟨⟨by decide, by decide, by decide⟩, ?_⟩
  have h := C4_rejoin c4Join1.1 "s1" "u1" "T" "general" "f2" 2
    { id := "team_T_general", teamId := "T", rtype := "general",
      members := ["u1"], createdAt := 1, lastActivity := 1 }
    (by decide) (by decide) (by decide)
  exact h

/-- C8: the failing trace.  Before the pause a tick delivers the periodic
`analytics_update`; while paused a tick delivers nothing — but it also
clears the interval for good (`clearInterval` inside the callback when
`isActive` is false).  `handleMobileFocus` then flips the stream back to
`isActive = true` under the same subscription id and emits nothing (so no
duplicate snapshot), yet no interval exists any more: every tick after
the resume delivers nothing and leaves the state unchanged, so the
recurring pushes never come back — contradicting the claim that resuming
resumes recurring delivery. -/
theorem C8_pause_resume_bug :
    (analyticsTick c8Sub.1 c8StreamId "s1" 30).2
        = [Emit.toSocket "s1" "analytics_update"
            (Payload.analyticsUpdate c8StreamId)] ∧
    c8Tick1.2 = [] ∧
    c8Tick1.1.timers = [] ∧
    (mapGet c8Resumed.activeStreams c8StreamId).map
        (fun d => (d.id, d.isActive, d.isPaused))
        = some (c8StreamId, true, false) ∧
    c8Tick2.2 = [] ∧
    c8Tick2.1 = c8Resumed := by
  refine ⟨by decide, by decide, by decide, by decide, by decide, by decide⟩

/-- Characterization of `registerConnection` when the identity already
has a session on a different, still-connected socket. -/
theorem registerConnection_evict (st : WSState) (uid sid : String)
    (now : Nat) (es : UserSession)
    (hs : mapGet st.userSessions uid = some es)
    (hne : es.socketId ≠ sid)
    (hconn : es.socketId ∈ st.connectedSockets) :
    registerConnection st uid sid now
      = (let st1 : WSState := { st with
            connectedSockets := setInsert st.connectedSockets sid,
            socketUsers := (mapSet st.socketUsers sid
              { userId := uid, socketId := sid, isMobileActive := false }) }
         let r := handleDisconnection st1 es.socketId uid now
         ({ r.1 with userSessions := (mapSet r.1.userSessions uid
              { socketId := sid, teamIds := [], lastActivity := now }) },
          Emit.disconnectSocket es.socketId "io server disconnect"
            :: (r.2 ++ [Emit.toSocket sid "authenticated"
                (Payload.authenticatedMsg uid sid)]))) := by
  unfold registerConnection
  simp only [hs]
  rw [if_pos hne, if_pos (mem_setInsert_of_mem hconn)]
  rfl

theorem getLast?_append_singleton {α : Type} (l : List α) (a : α) :
    (l ++ [a]).getLast? = some a := by
  induction l with
  | nil => rfl
  | cons x xs ih =>
    cases xs with
    | nil => rfl
    | cons y ys =>
      simp only [List.cons_append] at ih ⊢
      rw [List.getLast?_cons_cons]
      exact ih

/-- C1 (amended): when a registration arrives for an identity that
already has a live connection on a different socket, the prior socket is
sent a close signal first — socket.io's plain `disconnect()`, whose
client-observed reason is the transport-defined `io server disconnect`,
not `superseded` — and the `authenticated` acceptance to the new socket
is emitted last; afterwards the identity's session points at the new
socket only, the old socket is gone from every registry, and at most one
socket remains registered for the identity. -/
theorem C1_single_live_connection (st : WSState) (uid sid : String)
    (now : Nat) (es : UserSession)
    (hs : mapGet st.userSessions uid = some es)
    (hne : es.socketId ≠ sid)
    (hconn : es.socketId ∈ st.connectedSockets)
    (hone : ∀ p ∈ st.socketUsers, p.2.userId = uid → p.1 = es.socketId) :
    (registerConnection st uid sid now).2.head?
        = some (Emit.disconnectSocket es.socketId "io server disconnect") ∧
    (registerConnection st uid sid now).2.getLast?
        = some (Emit.toSocket sid "authenticated"
            (Payload.authenticatedMsg uid sid)) ∧
    mapGet (registerConnection st uid sid now).1.userSessions uid
        = some { socketId := sid, teamIds := [], lastActivity := now } ∧
    mapGet (registerConnection st uid sid now).1.socketUsers es.socketId
        = none ∧
    ¬ es.socketId ∈ (registerConnection st uid sid now).1.connectedSockets ∧
    (∀ p ∈ (registerConnection st uid sid now).1.socketUsers,
        p.2.userId = uid → p.1 = sid) := by
  rw [registerConnection_evict st uid sid now es hs hne hconn]
  refine ⟨rfl, ?_, ?_, ?_, ?_, ?_⟩
  · show (Emit.disconnectSocket es.socketId "io server disconnect"
        :: (_ ++ [Emit.toSocket sid "authenticated"
              (Payload.authenticatedMsg uid sid)])).getLast? = _
    rw [← List.cons_append, getLast?_append_singleton]
  · show mapGet (mapSet _ uid
        ({ socketId := sid, teamIds := [], lastActivity := now }
          : UserSession)) uid = _
    rw [mapGet_mapSet_self]
  · show mapGet (handleDisconnection _ es.socketId uid now).1.socketUsers
        es.socketId = none
    rw [handleDisconnection_socketUsers, mapGet_mapDelete_self]
  · show ¬ es.socketId
        ∈ (handleDisconnection _ es.socketId uid now).1.connectedSockets
    rw [handleDisconnection_connectedSockets]
    intro hmem
    exact (mem_setErase.mp hmem).2 rfl
  · intro p hp hpu
    have hp2 : p ∈ mapDelete (mapSet st.socketUsers sid
        { userId := uid, socketId := sid, isMobileActive := false })
        es.socketId := hp
    rcases mem_mapDelete.mp hp2 with ⟨hmem2, hne2⟩
    rcases mem_mapSet hmem2 with h1 | h1
    · rw [h1]
    · exact absurd (hone p h1 hpu) hne2

/-- C1 counterexample: when `u1` (live on `s1`) registers again on `s2`,
the prior connection is closed by a plain server disconnect whose reason
is socket.io's fixed `io server disconnect` — no close signal carrying a
`superseded` reason is ever emitted (the string appears nowhere in the
code). -/
theorem C1_counterexample :
    ((registerConnection c1State "u1" "s2" 5).2.filter
        (fun e => match e with
          | Emit.disconnectSocket _ r => decide (r = "superseded")
          | _ => false)) = [] ∧
    ((registerConnection c1State "u1" "s2" 5).2.filter
        (fun e => match e with
          | Emit.disconnectSocket _ _ => true
          | _ => false))
      = [Emit.disconnectSocket "s1" "io server disconnect"] := by
  refine ⟨by decide, by decide⟩

/-- Witness for C1 at the concrete re-registration of `u1` on `s2`. -/
theorem C1_single_live_connection_witness :
    (mapGet c1State.userSessions "u1"
        = some { socketId := "s1", teamIds := [], lastActivity := 0 } ∧
     "s1" ≠ "s2" ∧ "s1" ∈ c1State.connectedSockets ∧
     ∀ p ∈ c1State.socketUsers, p.2.userId = "u1" → p.1 = "s1") ∧
    ((registerConnection c1State "u1" "s2" 5).2.head?
        = some (Emit.disconnectSocket "s1" "io server disconnect") ∧
     (registerConnection c1State "u1" "s2" 5).2.getLast?
        = some (Emit.toSocket "s2" "authenticated"
            (Payload.authenticatedMsg "u1" "s2")) ∧
     mapGet (registerConnection c1State "u1" "s2" 5).1.userSessions "u1"
        = some { socketId := "s2", teamIds := [], lastActivity := 5 } ∧
     mapGet (registerConnection c1State "u1" "s2" 5).1.socketUsers "s1"
        = none ∧
     ¬ "s1" ∈ (registerConnection c1State "u1" "s2" 5).1.connectedSockets ∧
     (∀ p ∈ (registerConnection c1State "u1" "s2" 5).1.socketUsers,
        p.2.userId = "u1" → p.1 = "s2")) := by
  refine ⟨⟨by decide, by decide, by decide, by decide⟩, ?_⟩
  exact C1_single_live_connection c1State "u1" "s2" 5
    { socketId := "s1", teamIds := [], lastActivity := 0 }
    (by decide) (by decide) (by decide) (by decide)

theorem countTeamEvents_append (l1 l2 : List (String × StreamData))
    (teamId : String) :
    countTeamEvents (l1 ++ l2) teamId
      = countTeamEvents l1 teamId + countTeamEvents l2 teamId := by
  simp [countTeamEvents, List.filter_append]

theorem countTeamEvents_eq_zero_of_not_any
    (l : List (String × StreamData)) (teamId : String)
    (h : l.any (fun p => p.2.teamId == teamId
        && p.2.stype == "team_events") = false) :
    countTeamEvents l teamId = 0 := by
  simp only [countTeamEvents, List.length_eq_zero]
  rw [List.filter_eq_nil_iff]
  intro p hp
  rw [List.any_eq_false] at h
  exact h p hp

theorem nodup_keys_append_single {α : Type} {m : List (String × α)}
    {k : String} (v : α) (hnd : (m.map Prod.fst).Nodup)
    (h : mapGet m k = none) :
    ((m ++ [(k, v)]).map Prod.fst).Nodup := by
  rw [List.map_append, List.nodup_append]
  refine ⟨hnd, by simp, ?_⟩
  intro a ha hb
  simp only [List.map_cons, List.map_nil, List.mem_singleton] at hb
  subst hb
  exact not_mem_keys_of_mapGet_eq_none h ha

theorem rtSubscribe_nodup (chans : List (String × RtChannel))
    (channelName teamId ctype : String)
    (hnd : (chans.map Prod.fst).Nodup) :
    ((rtSubscribe chans channelName teamId ctype).map Prod.fst).Nodup := by
  unfold rtSubscribe
  by_cases h : (mapGet chans channelName).isSome
  · rwa [if_pos h]
  · rw [if_neg h]
    have hn : mapGet chans channelName = none :=
      Option.not_isSome_iff_eq_none.mp h
    rw [mapSet_of_none _ hn]
    exact nodup_keys_append_single _ hnd hn

/-- C7 counterexample: `u1` joins `team_T_general`, which opens the
`team_events` upstream bundle and its three realtime channels; `u1`, the
room's only member, then disconnects — the room registry becomes empty
(zero interested parties) yet the upstream stream and all three channels
remain open: there is no reference counting and no teardown. -/
theorem C7_counterexample :
    c7After.1.rooms = [] ∧
    c7After.1.activeStreams.map Prod.fst = ["f1"] ∧
    (mapGet c7After.1.activeStreams "f1").map (fun d => d.stype)
        = some "team_events" ∧
    c7After.1.rtChannels.map Prod.fst
        = ["team_T_checkins", "team_T_insights", "dashboard_T"] := by
  refine ⟨by decide, by decide, by decide, by decide⟩

/-- C7 (amended): at most one live upstream subscription per team's
`team_events` bundle and at most one realtime channel per channel name
(the names encode the (team, category) pairs) are maintained by the
presence checks in `subscribeToTeamEvents` and the `realtimeService`
registry; but there is no reference count, and no disconnection ever
tears an upstream subscription down — connection-less streams and the
channel registry survive every `handleDisconnection` until process-wide
cleanup. -/
theorem C7_upstream_dedup (st : WSState) (teamId roomId freshId : String)
    (now : Nat)
    (h1 : countTeamEvents st.activeStreams teamId ≤ 1)
    (hfresh : mapGet st.activeStreams freshId = none)
    (hnd : (st.rtChannels.map Prod.fst).Nodup) :
    countTeamEvents
        (subscribeToTeamEvents st teamId roomId freshId now).activeStreams
        teamId ≤ 1 ∧
    (((subscribeToTeamEvents st teamId roomId freshId
        now).rtChannels).map Prod.fst).Nodup ∧
    (∀ sid uid : String, ∀ n2 : Nat,
      (∀ p ∈ st.activeStreams, p.2.socketId = none →
          p ∈ (handleDisconnection st sid uid n2).1.activeStreams) ∧
      (handleDisconnection st sid uid n2).1.rtChannels = st.rtChannels) := by
  refine ⟨?_, ?_, ?_⟩
  · unfold subscribeToTeamEvents
    by_cases hany : st.activeStreams.any
        (fun p => p.2.teamId == teamId && p.2.stype == "team_events")
    · rwa [if_pos hany]
    · rw [if_neg hany]
      have hz := countTeamEvents_eq_zero_of_not_any st.activeStreams teamId
        (Bool.eq_false_iff.mpr hany)
      simp only
      rw [mapSet_of_none _ hfresh, countTeamEvents_append, hz]
      simp [countTeamEvents]
  · unfold subscribeToTeamEvents
    by_cases hany : st.activeStreams.any
        (fun p => p.2.teamId == teamId && p.2.stype == "team_events")
    · rwa [if_pos hany]
    · rw [if_neg hany]
      simp only
      exact rtSubscribe_nodup _ _ _ _
        (rtSubscribe_nodup _ _ _ _ (rtSubscribe_nodup _ _ _ _ hnd))
  · intro sid uid n2
    refine ⟨?_, handleDisconnection_rtChannels st sid uid n2⟩
    intro p hp hsock
    rw [handleDisconnection_activeStreams]
    refine List.mem_filter.mpr ⟨hp, ?_⟩
    simp [hsock]

/-- Witness for C7: a second subscription attempt for team `T` on the
state `c7Join.1` (which already holds the `team_events` bundle) leaves
exactly one bundle, keeps the channel names unique, and the bundle
survives any disconnection. -/
theorem C7_upstream_dedup_witness :
    (countTeamEvents c7Join.1.activeStreams "T" ≤ 1 ∧
     mapGet c7Join.1.activeStreams "f9" = none ∧
     (c7Join.1.rtChannels.map Prod.fst).Nodup) ∧
    (countTeamEvents
        (subscribeToTeamEvents c7Join.1 "T" "team_T_general" "f9"
          7).activeStreams "T" ≤ 1 ∧
    (((subscribeToTeamEvents c7Join.1 "T" "team_T_general" "f9"
        7).rtChannels).map Prod.fst).Nodup ∧
    (∀ sid uid : String, ∀ n2 : Nat,
      (∀ p ∈ c7Join.1.activeStreams, p.2.socketId = none →
          p ∈ (handleDisconnection c7Join.1 sid uid n2).1.activeStreams) ∧
      (handleDisconnection c7Join.1 sid uid n2).1.rtChannels
        = c7Join.1.rtChannels)) := by
  refine ⟨⟨by decide, by decide, by decide⟩, ?_⟩
  exact C7_upstream_dedup c7Join.1 "T" "team_T_general" "f9" 7
    (by decide) (by decide) (by decide)

/-- A room entry kept by the disconnection cleanup no longer contains the
user, and is non-empty whenever the original was. -/
theorem roomCleanupEntry_kept (sid uid : String) (p0 p : String × Room)
    (h : (roomCleanupEntry sid uid p0).1 = some p) :
    ¬ uid ∈ p.2.members ∧ (p0.2.members ≠ [] → p.2.members ≠ []) := by
  unfold roomCleanupEntry at h
  by_cases hm : uid ∈ p0.2.members
  · rw [if_pos hm] at h
    dsimp only at h
    by_cases hz : setErase p0.2.members uid = []
    · rw [if_pos hz] at h
      exact absurd h (by simp)
    · rw [if_neg hz] at h
      injection h with h2
      rw [← h2]
      refine ⟨by simp, fun _ => hz⟩
  · rw [if_neg hm] at h
    dsimp only at h
    injection h with h2
    rw [← h2]
    exact ⟨hm, fun h3 => h3⟩

/-- A collaboration entry produced by the disconnection cleanup never
retains the user among its participants. -/
theorem collabCleanupEntry_no_participant (sid uid : String) (now : Nat)
    (p0 : String × CollabSession) :
    ¬ uid ∈ (collabCleanupEntry sid uid now p0).1.2.participants := by
  unfold collabCleanupEntry
  by_cases hm : uid ∈ p0.2.participants
  · rw [if_pos hm]
    dsimp only
    by_cases hc : p0.2.createdBy = uid ∨ setErase p0.2.participants uid = []
    · rw [if_pos hc]; simp
    · rw [if_neg hc]; simp
  · rw [if_neg hm]
    simpa using hm

/-- C2: after `handleDisconnection` completes, the socket is gone from
`socketUsers`, the user from `userSessions`, the user is in no room's
member set and no session's participant set, every stream owned by the
socket (including, via the single-session hypothesis, every stream
recorded for the user) is removed, and a later tick of any interval that
belonged to a removed stream delivers nothing (the interval clears
itself). -/
theorem C2_disconnect_teardown (st : WSState) (sid uid : String)
    (now : Nat)
    (hstreams : ∀ p ∈ st.activeStreams,
        p.2.userId = some uid → p.2.socketId = some sid)
    (hkeys : (st.activeStreams.map Prod.fst).Nodup) :
    mapGet (handleDisconnection st sid uid now).1.socketUsers sid = none ∧
    mapGet (handleDisconnection st sid uid now).1.userSessions uid = none ∧
    (∀ p ∈ (handleDisconnection st sid uid now).1.rooms,
        ¬ uid ∈ p.2.members) ∧
    (∀ p ∈ (handleDisconnection st sid uid now).1.activeStreams,
        p.2.socketId ≠ some sid ∧ p.2.userId ≠ some uid) ∧
    (∀ p ∈ (handleDisconnection st sid uid now).1.collaborationSessions,
        ¬ uid ∈ p.2.participants) ∧
    (∀ streamId : String, ∀ d : StreamData,
        mapGet st.activeStreams streamId = some d →
        d.socketId = some sid →
        ∀ s2 : String, ∀ t2 : Nat,
          (analyticsTick (handleDisconnection st sid uid now).1
            streamId s2 t2).2 = []) := by
  refine ⟨?_, ?_, ?_, ?_, ?_, ?_⟩
  · rw [handleDisconnection_socketUsers]
    exact mapGet_mapDelete_self _ _
  · rw [handleDisconnection_userSessions]
    exact mapGet_mapDelete_self _ _
  · rw [handleDisconnection_rooms]
    intro p hp
    unfold disconnectRooms at hp
    dsimp only at hp
    rcases List.mem_filterMap.mp hp with ⟨q, hq, hq2⟩
    rcases List.mem_map.mp hq with ⟨p0, hp0, hqe⟩
    subst hqe
    exact (roomCleanupEntry_kept sid uid p0 p hq2).1
  · rw [handleDisconnection_activeStreams]
    intro p hp
    rcases List.mem_filter.mp hp with ⟨hm, hpred⟩
    have hno : p.2.socketId ≠ some sid := by simpa using hpred
    exact ⟨hno, fun hu => hno (hstreams p hm hu)⟩
  · rw [handleDisconnection_collabs]
    intro p hp
    unfold disconnectCollabs at hp
    dsimp only at hp
    rcases List.mem_map.mp hp with ⟨q, hq, hqe⟩
    rcases List.mem_map.mp hq with ⟨p0, hp0, hqe2⟩
    subst hqe2
    rw [← hqe]
    exact collabCleanupEntry_no_participant sid uid now p0
  · intro streamId d hd hsock s2 t2
    have hnone : mapGet (handleDisconnection st sid uid
        now).1.activeStreams streamId = none := by
      rw [handleDisconnection_activeStreams]
      apply mapGet_filter_eq_none _ hkeys hd
      simp [hsock]
    unfold analyticsTick
    by_cases ht : (streamId, s2)
        ∈ (handleDisconnection st sid uid now).1.timers
    · rw [if_pos ht, hnone]
    · rw [if_neg ht]

/-- Witness for C2: `u1` (socket `s1`) disconnects from `c2State`. -/
theorem C2_disconnect_teardown_witness :
    ((∀ p ∈ c2State.activeStreams,
        p.2.userId = some "u1" → p.2.socketId = some "s1") ∧
     (c2State.activeStreams.map Prod.fst).Nodup) ∧
    (mapGet (handleDisconnection c2State "s1" "u1" 9).1.socketUsers "s1"
        = none ∧
     mapGet (handleDisconnection c2State "s1" "u1" 9).1.userSessions "u1"
        = none ∧
     (∀ p ∈ (handleDisconnection c2State "s1" "u1" 9).1.rooms,
        ¬ "u1" ∈ p.2.members) ∧
     (∀ p ∈ (handleDisconnection c2State "s1" "u1" 9).1.activeStreams,
        p.2.socketId ≠ some "s1" ∧ p.2.userId ≠ some "u1") ∧
     (∀ p ∈ (handleDisconnection c2State "s1" "u1"
          9).1.collaborationSessions, ¬ "u1" ∈ p.2.participants) ∧
     (∀ streamId : String, ∀ d : StreamData,
        mapGet c2State.activeStreams streamId = some d →
        d.socketId = some "s1" →
        ∀ s2 : String, ∀ t2 : Nat,
          (analyticsTick (handleDisconnection c2State "s1" "u1" 9).1
            streamId s2 t2).2 = [])) := by
  refine ⟨⟨by decide, by decide⟩, ?_⟩
  exact C2_disconnect_teardown c2State "s1" "u1" 9 (by decide) (by decide)

/-- Disconnection leaves rooms that never contained the user untouched. -/
theorem disconnectRooms_untouched (sid uid : String) :
    ∀ rooms : List (String × Room),
      (∀ p ∈ rooms, ¬ uid ∈ p.2.members) →
      (disconnectRooms rooms sid uid).1 = rooms := by
  intro rooms
  induction rooms with
  | nil => intro _; rfl
  | cons p rest ih =>
    intro h
    have hp : roomCleanupEntry sid uid p = (some p, []) := by
      unfold roomCleanupEntry
      rw [if_neg (h p (List.mem_cons_self _ _))]
    have hrest := ih (fun q hq => h q (List.mem_cons_of_mem _ hq))
    unfold disconnectRooms at hrest ⊢
    dsimp only at hrest ⊢
    simp [hp, hrest]

theorem disconnectRooms_append (l1 l2 : List (String × Room))
    (sid uid : String) :
    (disconnectRooms (l1 ++ l2) sid uid).1
      = (disconnectRooms l1 sid uid).1 ++ (disconnectRooms l2 sid uid).1 := by
  unfold disconnectRooms
  simp [List.map_append, List.filterMap_append]

theorem disconnectRooms_nonempty (sid uid : String)
    (rooms : List (String × Room))
    (h : ∀ p ∈ rooms, p.2.members ≠ []) :
    ∀ p ∈ (disconnectRooms rooms sid uid).1, p.2.members ≠ [] := by
  intro p hp
  unfold disconnectRooms at hp
  dsimp only at hp
  rcases List.mem_filterMap.mp hp with ⟨q, hq, hq2⟩
  rcases List.mem_map.mp hq with ⟨p0, hp0, hqe⟩
  subst hqe
  exact (roomCleanupEntry_kept sid uid p0 p hq2).2 (h p0 hp0)

/-- C3: the room record is created on the first join with exactly the
joiner as member; after the join every registered room still has a
non-empty member set; every disconnection preserves that invariant
(a room emptied by the leave is deleted); and a fresh user's join
followed by their disconnect restores the pre-join room count. -/
theorem C3_room_lifecycle (st : WSState)
    (sid uid teamId rtype freshId : String) (now now2 : Nat)
    (hteam : teamId ≠ "")
    (hfresh : mapGet st.rooms ("team_" ++ teamId ++ "_" ++ rtype) = none)
    (hne : ∀ p ∈ st.rooms, p.2.members ≠ [])
    (honly : ∀ p ∈ st.rooms, ¬ uid ∈ p.2.members) :
    (mapGet (handleJoinTeamRoom st sid uid teamId rtype true freshId
        now).1.rooms ("team_" ++ teamId ++ "_" ++ rtype)).map
        (fun r => r.members) = some [uid] ∧
    (∀ p ∈ (handleJoinTeamRoom st sid uid teamId rtype true freshId
        now).1.rooms, p.2.members ≠ []) ∧
    (∀ st2 : WSState, (∀ p ∈ st2.rooms, p.2.members ≠ []) →
      ∀ sid2 uid2 : String, ∀ n2 : Nat,
        ∀ p ∈ (handleDisconnection st2 sid2 uid2 n2).1.rooms,
          p.2.members ≠ []) ∧
    (handleDisconnection (handleJoinTeamRoom st sid uid teamId rtype true
        freshId now).1 sid uid now2).1.rooms.length
      = st.rooms.length := by
  have hchar := (handleJoinTeamRoom_fresh st sid uid teamId rtype freshId
    now hteam hfresh).1
  refine ⟨?_, ?_, ?_, ?_⟩
  · rw [hchar, mapGet_append_of_none _ hfresh]
    simp [mapGet]
  · rw [hchar]
    intro p hp
    rcases List.mem_append.mp hp with h1 | h1
    · exact hne p h1
    · simp only [List.mem_singleton] at h1
      rw [h1]
      simp
  · intro st2 h2 sid2 uid2 n2
    rw [handleDisconnection_rooms]
    exact disconnectRooms_nonempty sid2 uid2 st2.rooms h2
  · rw [handleDisconnection_rooms, hchar, disconnectRooms_append,
      disconnectRooms_untouched sid uid st.rooms honly]
    have htar : (disconnectRooms [("team_" ++ teamId ++ "_" ++ rtype,
        { id := "team_" ++ teamId ++ "_" ++ rtype, teamId := teamId,
          rtype := rtype, members := [uid], createdAt := now,
          lastActivity := now })] sid uid).1 = [] := by
      unfold disconnectRooms roomCleanupEntry
      simp [setErase]
    rw [htar, List.append_nil]

/-- Witness for C3: fresh user `u1` joins `team_T_general` in `c3State`
(one unrelated room) and disconnects again. -/
theorem C3_room_lifecycle_witness :
    (("T" : String) ≠ "" ∧
     mapGet c3State.rooms "team_T_general" = none ∧
     (∀ p ∈ c3State.rooms, p.2.members ≠ []) ∧
     (∀ p ∈ c3State.rooms, ¬ "u1" ∈ p.2.members)) ∧
    ((mapGet (handleJoinTeamRoom c3State "s1" "u1" "T" "general" true
        "f1" 1).1.rooms ("team_" ++ "T" ++ "_" ++ "general")).map
        (fun r => r.members) = some ["u1"] ∧
     (∀ p ∈ (handleJoinTeamRoom c3State "s1" "u1" "T" "general" true
        "f1" 1).1.rooms, p.2.members ≠ []) ∧
     (∀ st2 : WSState, (∀ p ∈ st2.rooms, p.2.members ≠ []) →
       ∀ sid2 uid2 : String, ∀ n2 : Nat,
         ∀ p ∈ (handleDisconnection st2 sid2 uid2 n2).1.rooms,
           p.2.members ≠ []) ∧
     (handleDisconnection (handleJoinTeamRoom c3State "s1" "u1" "T"
        "general" true "f1" 1).1 "s1" "u1" 2).1.rooms.length
       = c3State.rooms.length) := by
  refine ⟨⟨by decide, by decide, by decide, by decide⟩, ?_⟩
  exact C3_room_lifecycle c3State "s1" "u1" "T" "general" "f1" 1 2
    (by decide) (by decide) (by decide) (by decide)

/-- C9 counterexample: `A` and `B` are in `team_T_general`; `C` joins.
The complete emission is the join broadcast to the others followed by a
`room_joined` confirmation to `C` carrying only a member count — `C`
receives no message at all that lists the roster (every payload delivered
to `sC` carries zero user ids), and the confirmation comes after (not
before) the join broadcast. -/
theorem C9_counterexample :
    c9Join.2
      = [Emit.toRoomExcept "team_T_general" "sC" "user_joined_room"
          (Payload.userJoinedRoom "team_T_general" "C"),
         Emit.toSocket "sC" "room_joined"
          (Payload.roomJoined "team_T_general" "T" "general" 3)] ∧
    (c9Join.2.filter (fun e => deliveredTo c9Join.1.ioRooms "sC" e))
      = [Emit.toSocket "sC" "room_joined"
          (Payload.roomJoined "team_T_general" "T" "general" 3)] ∧
    (∀ e ∈ c9Join.2, deliveredTo c9Join.1.ioRooms "sC" e = true →
      ((emitPayload e).map carriedUserIds).getD ["?"] = []) := by
  refine ⟨by decide, by decide, by decide⟩

/-- C9 (amended): when a connection joins a room, the join delta is
broadcast first and each other member socket receives it exactly once;
the joining connection then receives exactly one `room_joined`
confirmation whose payload carries the member count only (no user ids,
hence no roster sync), after the broadcast. -/
theorem C9_join_notifications (st : WSState)
    (sid uid teamId rtype freshId sm : String) (now : Nat) (r : Room)
    (hteam : teamId ≠ "")
    (hr : mapGet st.rooms ("team_" ++ teamId ++ "_" ++ rtype) = some r)
    (hnew : ¬ uid ∈ r.members)
    (hm : sm ∈ roomSockets st.ioRooms ("team_" ++ teamId ++ "_" ++ rtype))
    (hsm : sm ≠ sid) :
    (handleJoinTeamRoom st sid uid teamId rtype true freshId now).2
      = [Emit.toRoomExcept ("team_" ++ teamId ++ "_" ++ rtype) sid
          "user_joined_room"
          (Payload.userJoinedRoom ("team_" ++ teamId ++ "_" ++ rtype) uid),
         Emit.toSocket sid "room_joined"
          (Payload.roomJoined ("team_" ++ teamId ++ "_" ++ rtype) teamId
            rtype (r.members.length + 1))] ∧
    ((handleJoinTeamRoom st sid uid teamId rtype true freshId
        now).2.filter (fun e => deliveredTo (handleJoinTeamRoom st sid uid
          teamId rtype true freshId now).1.ioRooms sm e))
      = [Emit.toRoomExcept ("team_" ++ teamId ++ "_" ++ rtype) sid
          "user_joined_room"
          (Payload.userJoinedRoom ("team_" ++ teamId ++ "_" ++ rtype)
            uid)] ∧
    ((handleJoinTeamRoom st sid uid teamId rtype true freshId
        now).2.filter (fun e => deliveredTo (handleJoinTeamRoom st sid uid
          teamId rtype true freshId now).1.ioRooms sid e))
      = [Emit.toSocket sid "room_joined"
          (Payload.roomJoined ("team_" ++ teamId ++ "_" ++ rtype) teamId
            rtype (r.members.length + 1))] ∧
    carriedUserIds (Payload.roomJoined ("team_" ++ teamId ++ "_" ++ rtype)
        teamId rtype (r.members.length + 1)) = [] := by
  have hchar := handleJoinTeamRoom_existing st sid uid teamId rtype
    freshId now r hteam hr
  have hlen : setInsert r.members uid = r.members ++ [uid] :=
    setInsert_of_not_mem hnew
  have hio : (handleJoinTeamRoom st sid uid teamId rtype true freshId
      now).1.ioRooms
      = ioJoin st.ioRooms ("team_" ++ teamId ++ "_" ++ rtype) sid :=
    handleJoinTeamRoom_ioRooms st sid uid teamId rtype freshId now hteam
  have hsm2 : sm ∈ roomSockets (handleJoinTeamRoom st sid uid teamId rtype
      true freshId now).1.ioRooms ("team_" ++ teamId ++ "_" ++ rtype) := by
    rw [hio, roomSockets_ioJoin_self]
    exact mem_setInsert_of_mem hm
  have hsm3 : ¬ (sid = sm) := fun hh => hsm hh.symm
  refine ⟨?_, ?_, ?_, rfl⟩
  · rw [hchar.2, hlen]
    simp
  · rw [hchar.2]
    simp [deliveredTo, hsm, hsm2, hlen, hsm3]
  · rw [hchar.2]
    simp [deliveredTo, hlen]

/-- Witness for C9: `C` joins `team_T_general` in `c9State`, where `B`'s
socket `sB` is an existing room member. -/
theorem C9_join_notifications_witness :
    (("T" : String) ≠ "" ∧
     mapGet c9State.rooms "team_T_general"
        = some { id := "team_T_general", teamId := "T", rtype := "general",
                 members := ["A", "B"], createdAt := 0, lastActivity := 0 } ∧
     ¬ "C" ∈ ["A", "B"] ∧
     "sB" ∈ roomSockets c9State.ioRooms ("team_" ++ "T" ++ "_" ++ "general") ∧
     "sB" ≠ "sC") ∧
    ((handleJoinTeamRoom c9State "sC" "C" "T" "general" true "f1" 3).2
      = [Emit.toRoomExcept ("team_" ++ "T" ++ "_" ++ "general") "sC"
          "user_joined_room"
          (Payload.userJoinedRoom ("team_" ++ "T" ++ "_" ++ "general") "C"),
         Emit.toSocket "sC" "room_joined"
          (Payload.roomJoined ("team_" ++ "T" ++ "_" ++ "general") "T"
            "general" (["A", "B"].length + 1))] ∧
     ((handleJoinTeamRoom c9State "sC" "C" "T" "general" true "f1"
        3).2.filter (fun e => deliveredTo (handleJoinTeamRoom c9State "sC"
          "C" "T" "general" true "f1" 3).1.ioRooms "sB" e))
      = [Emit.toRoomExcept ("team_" ++ "T" ++ "_" ++ "general") "sC"
          "user_joined_room"
          (Payload.userJoinedRoom ("team_" ++ "T" ++ "_" ++ "general")
            "C")] ∧
     ((handleJoinTeamRoom c9State "sC" "C" "T" "general" true "f1"
        3).2.filter (fun e => deliveredTo (handleJoinTeamRoom c9State "sC"
          "C" "T" "general" true "f1" 3).1.ioRooms "sC" e))
      = [Emit.toSocket "sC" "room_joined"
          (Payload.roomJoined ("team_" ++ "T" ++ "_" ++ "general") "T"
            "general" (["A", "B"].length + 1))] ∧
     carriedUserIds (Payload.roomJoined ("team_" ++ "T" ++ "_" ++
        "general") "T" "general" (["A", "B"].length + 1)) = []) := by
  refine ⟨⟨by decide, by decide, by decide, by decide, by decide⟩, ?_⟩
  exact C9_join_notifications c9State "sC" "C" "T" "general" "f1" "sB" 3
    { id := "team_T_general", teamId := "T", rtype := "general",
      members := ["A", "B"], createdAt := 0, lastActivity := 0 }
    (by decide) (by decide) (by decide) (by decide) (by decide)

theorem collabCleanupEntry_key (sid uid : String) (now : Nat)
    (p : String × CollabSession) :
    (collabCleanupEntry sid uid now p).1.1 = p.1 := by
  unfold collabCleanupEntry
  by_cases hm : uid ∈ p.2.participants
  · rw [if_pos hm]
    dsimp only
    by_cases hc : p.2.createdBy = uid ∨ setErase p.2.participants uid = []
    · rw [if_pos hc]
    · rw [if_neg hc]
  · rw [if_neg hm]

/-- The cleanup entry for a session whose creator is the disconnecting
user: the session is marked ended with the timestamp recorded, and the
participant-left notification is followed by the `collaboration_ended`
broadcast carrying `endedBy` = the creator. -/
theorem collabCleanupEntry_target (sid uid : String) (now : Nat)
    (p : String × CollabSession) (hmem : uid ∈ p.2.participants)
    (hcr : p.2.createdBy = uid) :
    collabCleanupEntry sid uid now p
      = ((p.1, ({ p.2 with participants := setErase p.2.participants uid, status := "ended", endedAt := some now } : CollabSession)),
         [Emit.toRoomExcept ("collaboration_" ++ p.1) sid
            "collaboration_participant_left"
            (Payload.collabParticipantLeft p.1 uid),
          Emit.toRoom ("collaboration_" ++ p.1) "collaboration_ended"
            (Payload.collabEnded p.1 uid)]) := by
  unfold collabCleanupEntry
  rw [if_pos hmem, if_pos (Or.inl hcr)]

theorem disconnectCollabs_cons (q : String × CollabSession)
    (rest : List (String × CollabSession)) (sid uid : String) (now : Nat) :
    disconnectCollabs (q :: rest) sid uid now
      = ((collabCleanupEntry sid uid now q).1
            :: (disconnectCollabs rest sid uid now).1,
         (collabCleanupEntry sid uid now q).2
            ++ (disconnectCollabs rest sid uid now).2) := by
  unfold disconnectCollabs
  simp [List.map_cons, List.flatten_cons]

theorem roomCleanupEntry_no_ended (sid uid sessId : String)
    (p : String × Room) :
    (roomCleanupEntry sid uid p).2.filter (isEndedEmitFor sessId) = [] := by
  unfold roomCleanupEntry
  by_cases hm : uid ∈ p.2.members
  · rw [if_pos hm]
    dsimp only
    simp [isEndedEmitFor, emitPayload]
  · rw [if_neg hm]
    rfl

theorem disconnectRooms_no_ended (sid uid sessId : String) :
    ∀ rooms : List (String × Room),
      (disconnectRooms rooms sid uid).2.filter (isEndedEmitFor sessId)
        = [] := by
  intro rooms
  induction rooms with
  | nil => rfl
  | cons p rest ih =>
    have hcons : disconnectRooms (p :: rest) sid uid
        = ((disconnectRooms (p :: rest) sid uid).1,
           (roomCleanupEntry sid uid p).2
              ++ (disconnectRooms rest sid uid).2) := by
      unfold disconnectRooms
      simp [List.map_cons, List.flatten_cons]
    rw [hcons]
    dsimp only
    rw [List.filter_append, roomCleanupEntry_no_ended, ih]
    rfl

theorem collabCleanupEntry_ended_filter (sid uid sessId : String)
    (now : Nat) (p : String × CollabSession) (hne : p.1 ≠ sessId) :
    (collabCleanupEntry sid uid now p).2.filter (isEndedEmitFor sessId)
      = [] := by
  unfold collabCleanupEntry
  by_cases hm : uid ∈ p.2.participants
  · rw [if_pos hm]
    dsimp only
    by_cases hc : p.2.createdBy = uid ∨ setErase p.2.participants uid = []
    · rw [if_pos hc]
      simp [isEndedEmitFor, emitPayload, hne]
    · rw [if_neg hc]
      simp [isEndedEmitFor, emitPayload]
  · rw [if_neg hm]
    rfl

theorem disconnectCollabs_no_ended (sid uid sessId : String) (now : Nat) :
    ∀ sessions : List (String × CollabSession),
      (∀ p ∈ sessions, p.1 ≠ sessId) →
      (disconnectCollabs sessions sid uid now).2.filter
        (isEndedEmitFor sessId) = [] := by
  intro sessions
  induction sessions with
  | nil => intro _; rfl
  | cons p rest ih =>
    intro h
    rw [disconnectCollabs_cons]
    dsimp only
    rw [List.filter_append,
      collabCleanupEntry_ended_filter sid uid sessId now p
        (h p (List.mem_cons_self _ _)),
      ih (fun q hq => h q (List.mem_cons_of_mem _ hq))]
    rfl

/-- When the creator of session `sessId` disconnects, the collaboration
cleanup emits exactly one `collaboration_ended` for that session —
a room-wide broadcast with `endedBy` = the creator — and rebinds the
session id to a record with status `ended` and the end timestamp set. -/
theorem disconnectCollabs_creator
    (sid uid sessId : String) (now : Nat) (sess : CollabSession) :
    ∀ sessions : List (String × CollabSession),
      (sessions.map Prod.fst).Nodup →
      mapGet sessions sessId = some sess →
      sess.createdBy = uid →
      uid ∈ sess.participants →
      (disconnectCollabs sessions sid uid now).2.filter
          (isEndedEmitFor sessId)
        = [Emit.toRoom ("collaboration_" ++ sessId) "collaboration_ended"
            (Payload.collabEnded sessId uid)] ∧
      mapGet (disconnectCollabs sessions sid uid now).1 sessId
        = some { sess with
            participants := setErase sess.participants uid,
            status := "ended", endedAt := some now } := by
  intro sessions
  induction sessions with
  | nil =>
    intro _ hget
    simp [mapGet] at hget
  | cons q rest ih =>
    intro hnd hget hcr hmem
    simp only [List.map_cons, List.nodup_cons] at hnd
    rw [disconnectCollabs_cons]
    dsimp only
    by_cases hq : q.1 = sessId
    · have hsess : q.2 = sess := by
        rw [mapGet_cons, if_pos hq] at hget
        injection hget
      have htarget := collabCleanupEntry_target sid uid now q
        (by rw [hsess]; exact hmem) (by rw [hsess]; exact hcr)
      have hrest : ∀ p ∈ rest, p.1 ≠ sessId := by
        intro p hp he
        apply hnd.1
        rw [hq, ← he]
        exact List.mem_map.mpr ⟨p, hp, rfl⟩
      constructor
      · rw [List.filter_append,
          disconnectCollabs_no_ended sid uid sessId now rest hrest,
          htarget]
        simp [isEndedEmitFor, emitPayload, hq]
      · rw [htarget]
        dsimp only
        rw [mapGet_cons, if_pos hq, hsess]
    · have hget2 : mapGet rest sessId = some sess := by
        rwa [mapGet_cons, if_neg hq] at hget
      have hr := ih hnd.2 hget2 hcr hmem
      constructor
      · rw [List.filter_append,
          collabCleanupEntry_ended_filter sid uid sessId now q hq,
          hr.1]
        rfl
      · rw [mapGet_cons]
        rw [if_neg (by rw [collabCleanupEntry_key]; exact hq)]
        exact hr.2

/-- C5: if the creator of a session disconnects, the session is ended —
status set to `ended` and the end timestamp recorded — and exactly one
`collaboration_ended` event for that session is emitted in the whole
teardown; it carries `endedBy` = the creator's user id, is delivered to
every remaining participant socket still in the session room (hence each
such participant receives it exactly once), and is not delivered to the
disconnecting creator's socket, which has already left every room. -/
theorem C5_creator_disconnect (st : WSState) (sid uid sessId sp : String)
    (now : Nat) (sess : CollabSession)
    (hnd : (st.collaborationSessions.map Prod.fst).Nodup)
    (hget : mapGet st.collaborationSessions sessId = some sess)
    (hcr : sess.createdBy = uid)
    (hmem : uid ∈ sess.participants)
    (hsp : sp ∈ roomSockets st.ioRooms ("collaboration_" ++ sessId))
    (hspne : sp ≠ sid) :
    (mapGet (handleDisconnection st sid uid now).1.collaborationSessions
        sessId).map (fun s2 => (s2.status, s2.endedAt))
      = some ("ended", some now) ∧
    ((handleDisconnection st sid uid now).2.filter (isEndedEmitFor sessId))
      = [Emit.toRoom ("collaboration_" ++ sessId) "collaboration_ended"
          (Payload.collabEnded sessId uid)] ∧
    deliveredTo (handleDisconnection st sid uid now).1.ioRooms sp
        (Emit.toRoom ("collaboration_" ++ sessId) "collaboration_ended"
          (Payload.collabEnded sessId uid)) = true ∧
    deliveredTo (handleDisconnection st sid uid now).1.ioRooms sid
        (Emit.toRoom ("collaboration_" ++ sessId) "collaboration_ended"
          (Payload.collabEnded sessId uid)) = false := by
  have hdc := disconnectCollabs_creator sid uid sessId now sess
    st.collaborationSessions hnd hget hcr hmem
  refine ⟨?_, ?_, ?_, ?_⟩
  · rw [handleDisconnection_collabs, hdc.2]
    rfl
  · rw [handleDisconnection_emits, List.filter_append,
      disconnectRooms_no_ended sid uid sessId st.rooms, hdc.1]
    rfl
  · rw [handleDisconnection_ioRooms]
    simp only [deliveredTo]
    rw [roomSockets_mapErase]
    simp [hsp, hspne]
  · rw [handleDisconnection_ioRooms]
    simp only [deliveredTo]
    rw [roomSockets_mapErase]
    simp

/-- Witness for C5: creator `u1` of session `m1` disconnects from
`c5State`; remaining participant socket `s2` receives the one
`collaboration_ended` with `endedBy = u1`. -/
theorem C5_creator_disconnect_witness :
    ((c5State.collaborationSessions.map Prod.fst).Nodup ∧
     mapGet c5State.collaborationSessions "m1"
        = some { id := "m1", teamId := "T", stype := "meeting",
                 createdBy := "u1", participants := ["u1", "u2", "u3"],
                 status := "active", lastActivity := 0, endedAt := none } ∧
     ("u1" : String) = "u1" ∧ "u1" ∈ ["u1", "u2", "u3"] ∧
     "s2" ∈ roomSockets c5State.ioRooms ("collaboration_" ++ "m1") ∧
     "s2" ≠ "s1") ∧
    ((mapGet (handleDisconnection c5State "s1" "u1"
        7).1.collaborationSessions "m1").map
        (fun s2 => (s2.status, s2.endedAt))
      = some ("ended", some 7) ∧
     ((handleDisconnection c5State "s1" "u1" 7).2.filter
        (isEndedEmitFor "m1"))
      = [Emit.toRoom ("collaboration_" ++ "m1") "collaboration_ended"
          (Payload.collabEnded "m1" "u1")] ∧
     deliveredTo (handleDisconnection c5State "s1" "u1" 7).1.ioRooms "s2"
        (Emit.toRoom ("collaboration_" ++ "m1") "collaboration_ended"
          (Payload.collabEnded "m1" "u1")) = true ∧
     deliveredTo (handleDisconnection c5State "s1" "u1" 7).1.ioRooms "s1"
        (Emit.toRoom ("collaboration_" ++ "m1") "collaboration_ended"
          (Payload.collabEnded "m1" "u1")) = false) := by
  refine ⟨⟨by decide, by decide, rfl, by decide, by decide, by decide⟩, ?_⟩
  exact C5_creator_disconnect c5State "s1" "u1" "m1" "s2" 7
    { id := "m1", teamId := "T", stype := "meeting", createdBy := "u1",
      participants := ["u1", "u2", "u3"], status := "active",
      lastActivity := 0, endedAt := none }
    (by decide) (by decide) rfl (by decide) (by decide) (by decide)

end TeamPulse
